import Mathlib

/-!
Verification development for the Voxeron voice-agent core.

This file gives a shallow embedding, in Lean 4, of the deterministic core of
the repository `voxeronai-tech/voxeron-voice-agent`:

* `src/api/services/audio.py` — the energy-gate voice-activity segmenter
  (`VAD.feed`), modelled with an explicit millisecond clock in place of
  `time.time()` and frames as lists of bytes;
* `src/api/server.py` — the per-frame websocket handler (pause-merge turn
  assembly, flush dispatch, barge-in) and the heartbeat/idle loop;
* `src/api/session_controller.py` — the order state, the deterministic alias
  matcher `parse_add_item` with its local-quantity detector `_qty_near_span`,
  the naan-variant helpers, and the per-turn transcript pipeline of
  `SessionController.process_utterance` from the point where the transcript
  is available (speech-to-text itself is an external collaborator, so the
  transcript is an input here).

Floating-point clocks become natural-number milliseconds; audio energies
(only ever compared against thresholds) become rationals.  Python dicts that
hold the order are modelled as insertion-ordered association lists, matching
dict semantics (update in place, append new keys, `pop` removes).
-/

/-! ## Character and string utilities

The Python code normalizes text with `str.lower`, `str.isalnum`,
`str.isspace`, and regular expressions over ASCII/Latin-1 text.  We model the
character classes for the ASCII and Latin-1 range actually exercised by the
menus and keyword tables (Python `isalnum` is true for the Latin-1 letters
U+00C0–U+00FF except the two operators `×` U+00D7 and `÷` U+00F7). -/

/-- Python `ch.isalnum()` restricted to the ASCII/Latin-1 range used by the
    code: ASCII letters and digits, plus the Latin-1 letters U+00C0–U+00FF
    without `×` and `÷`. -/
def pyIsAlnum (c : Char) : Bool :=
  c.isAlphanum || (0xC0 ≤ c.toNat && c.toNat ≤ 0xFF && c.toNat ≠ 0xD7 && c.toNat ≠ 0xF7)

/-- Character class of the token regex `[A-Za-zÀ-ÿ0-9]` in `_qty_near_span`
    (this one keeps the whole U+00C0–U+00FF block, including `×` and `÷`,
    because the regex range does). -/
def spanTokChar (c : Char) : Bool :=
  (('A' ≤ c && c ≤ 'Z') || ('a' ≤ c && c ≤ 'z') || c.isDigit
    || (0xC0 ≤ c.toNat && c.toNat ≤ 0xFF))

/-- Python regex `\w` (with `re.UNICODE`) on the text range we model:
    alphanumerics plus underscore. -/
def wordChar (c : Char) : Bool := pyIsAlnum c || c = '_'

/-- Split a character list into maximal whitespace-free words
    (Python `str.split()`). -/
def splitWordsL (cs : List Char) : List (List Char) :=
  go cs [] []
where
  go : List Char → List Char → List (List Char) → List (List Char)
    | [], cur, acc =>
      (if cur.isEmpty then acc else cur.reverse :: acc).reverse
    | c :: rest, cur, acc =>
      if c.isWhitespace then
        go rest [] (if cur.isEmpty then acc else cur.reverse :: acc)
      else
        go rest (c :: cur) acc

/-- Join words with single spaces (Python `" ".join(...)`). -/
def joinWordsL : List (List Char) → List Char
  | [] => []
  | [w] => w
  | w :: ws => w ++ ' ' :: joinWordsL ws

/-- `norm_simple` from `src/api/intent.py`: lowercase, punctuation → space,
    collapse whitespace. -/
def normSimpleL (cs : List Char) : List Char :=
  joinWordsL (splitWordsL ((cs.map Char.toLower).map
    (fun c => if pyIsAlnum c || c.isWhitespace then c else ' ')))

/-- `norm_simple` on `String`. -/
def normSimple (s : String) : String := ⟨normSimpleL s.data⟩

/-- Is `pat` a contiguous substring of `hay`?  (Python `pat in hay`.) -/
def isSubL (pat hay : List Char) : Bool :=
  match hay with
  | [] => pat.isEmpty
  | _ :: rest => pat.isPrefixOf hay || isSubL pat rest

/-- Substring containment on `String` (Python `pat in hay`). -/
def strIn (pat hay : String) : Bool := isSubL pat.data hay.data

/-- Does `hay` contain any of the `pats`? (the `any(k in t for k in …)` idiom). -/
def anyIn (pats : List String) (hay : String) : Bool :=
  pats.any (fun p => strIn p hay)

/-- Python `str.lower()` on the modelled range. -/
def lowerStr (s : String) : String := ⟨s.data.map Char.toLower⟩

/-- Python `str.strip()` (strip surrounding whitespace). -/
def stripStr (s : String) : String :=
  ⟨((s.data.dropWhile Char.isWhitespace).reverse.dropWhile Char.isWhitespace).reverse⟩

/-- Python `str.replace(pat, repl)`: replace all non-overlapping occurrences,
    left to right (`skip` counts positions inside the previous match). -/
def replaceAllAux (pat repl : List Char) : List Char → Nat → List Char
  | [], _ => []
  | c :: rest, skip =>
    if 0 < skip then replaceAllAux pat repl rest (skip - 1)
    else if pat.isPrefixOf (c :: rest) then
      repl ++ replaceAllAux pat repl rest (pat.length - 1)
    else c :: replaceAllAux pat repl rest 0

/-- `str.replace` on strings (for the nonempty patterns used here). -/
def replaceAllStr (s pat repl : String) : String :=
  if pat = "" then s else ⟨replaceAllAux pat.data repl.data s.data 0⟩

/-- Python `str.strip(" .,")`. -/
def stripDotComma (s : String) : String :=
  let f : Char → Bool := fun c => c = ' ' || c = '.' || c = ','
  ⟨((s.data.dropWhile f).reverse.dropWhile f).reverse⟩

/-- Whitespace-split of a string into words (Python `str.split()`). -/
def wordsOf (s : String) : List String :=
  (splitWordsL s.data).map (fun w => (⟨w⟩ : String))

/-- Is a (nonempty) word all ASCII digits? (Python `tok.isdigit()` on our range). -/
def allDigits (w : List Char) : Bool :=
  !w.isEmpty && w.all Char.isDigit

/-- Decimal value of a digit word. -/
def digitsVal (w : List Char) : Nat :=
  w.foldl (fun a c => a * 10 + (c.toNat - '0'.toNat)) 0

/-! ## Voice-activity segmenter (`src/api/services/audio.py`, class `VAD`)

Frames are byte lists; the wall clock is natural-number milliseconds;
energies (only compared to the floor) are rationals. -/

structure VadCfg where
  energyFloor : ℚ
  frameMs : Nat
  speechConfirmFrames : Nat
  silenceEndMs : Nat
  minUtteranceMs : Nat
  /-- `max(1, preroll_ms // max(1, frame_ms))` computed in `VAD.__init__`. -/
  prerollFrames : Nat
deriving DecidableEq, Repr

structure VadState where
  inSpeech : Bool
  speechFrames : Nat
  silenceFrames : Nat
  buf : List Nat
  startedAt : Nat
  /-- pre-roll ring buffer, oldest first, bounded by `prerollFrames`. -/
  preroll : List (List Nat)
deriving DecidableEq, Repr

/-- `VAD.reset` / freshly constructed state. -/
def vadReset : VadState :=
  { inSpeech := false, speechFrames := 0, silenceFrames := 0,
    buf := [], startedAt := 0, preroll := [] }

/-- `deque(maxlen=n).append(f)`: append on the right, dropping from the left
    when the bound is exceeded. -/
def prerollAppend (n : Nat) (q : List (List Nat)) (f : List Nat) : List (List Nat) :=
  let q2 := q ++ [f]
  if n < q2.length then q2.drop (q2.length - n) else q2

/-- `VAD.feed(frame, energy)` from `src/api/services/audio.py`.  Returns the
    updated state and the emitted utterance, if any.  `now` models
    `time.time()` in milliseconds, so `utter_ms = now - startedAt`. -/
def vadFeed (cfg : VadCfg) (s : VadState) (now : Nat) (frame : List Nat)
    (energy : ℚ) : VadState × Option (List Nat) :=
  let isVoice : Bool := cfg.energyFloor ≤ energy
  if s.inSpeech = false then
    -- Always collect preroll while idle (including non-voice frames)
    let pre := prerollAppend cfg.prerollFrames s.preroll frame
    if isVoice then
      let sf := s.speechFrames + 1
      if cfg.speechConfirmFrames ≤ sf then
        -- Speech start confirmed: seed the buffer with the preroll contents,
        -- then also include the current frame.
        ({ inSpeech := true, speechFrames := sf, silenceFrames := 0,
           buf := s.buf ++ pre.flatten ++ frame,
           startedAt := now, preroll := [] }, none)
      else
        ({ s with preroll := pre, speechFrames := sf }, none)
    else
      ({ s with preroll := pre, speechFrames := 0 }, none)
  else
    -- In speech: accumulate every frame
    let buf := s.buf ++ frame
    let sil := if isVoice then 0 else s.silenceFrames + 1
    let silenceMs := sil * cfg.frameMs
    let utterMs := now - s.startedAt
    if cfg.silenceEndMs ≤ silenceMs ∧ cfg.minUtteranceMs ≤ utterMs then
      (vadReset, some buf)
    else
      ({ s with buf := buf, silenceFrames := sil }, none)

/-! ## Heartbeat / idle supervisor (`heartbeat_loop` in `src/api/server.py`)

One iteration of the loop reduces to a decision: keep sleeping, or send the
"Call ended due to inactivity." message and close the websocket.  There is no
other outward action in the loop body (the debug logging is rate-limited
telemetry). -/

structure HbCfg where
  /-- `HEARTBEAT_GRACE_AFTER_GREETING_SEC`, in milliseconds. -/
  graceMs : Nat
  /-- `HEARTBEAT_IDLE_SEC_MIN`, in milliseconds. -/
  idleMinMs : Nat
  /-- `HEARTBEAT_IDLE_SEC` default, in milliseconds. -/
  idleDefaultMs : Nat
deriving DecidableEq, Repr

/-- The session fields the heartbeat reads. -/
structure HbView where
  lastUserUtterEnd : Nat
  lastAgentSpeechEnd : Nat
  lastActivity : Nat
  processing : Bool
  speaking : Bool
deriving DecidableEq, Repr

/-- What one heartbeat iteration does. `closeInactive` stands for sending the
    "Call ended due to inactivity." agent text and closing the websocket; the
    loop has no other outward action (in particular no idle-check prompt). -/
inductive HbAction where
  | keepWaiting : HbAction
  | closeInactive : HbAction
deriving DecidableEq, Repr

/-- One iteration of `heartbeat_loop` (lines 262–342 of `src/api/server.py`)
    after the sleep: grace window, in-flight check, idle comparison. -/
def heartbeatCheck (cfg : HbCfg) (startedTs now : Nat) (v : HbView) : HbAction :=
  if now - startedTs < cfg.graceMs then .keepWaiting
  else if v.processing || v.speaking then .keepWaiting
  else
    let anchor := max v.lastActivity (max v.lastUserUtterEnd v.lastAgentSpeechEnd)
    let idle := now - anchor
    let idleSec := max cfg.idleMinMs cfg.idleDefaultMs
    if idleSec ≤ idle then .closeInactive else .keepWaiting

/-- A run of the heartbeat over a list of check instants with a constant view
    (no user/agent activity in between — the idle scenario). -/
def heartbeatRun (cfg : HbCfg) (startedTs : Nat) (v : HbView) :
    List Nat → List HbAction
  | [] => []
  | t :: ts =>
    match heartbeatCheck cfg startedTs t v with
    | .closeInactive => [.closeInactive]
    | .keepWaiting => .keepWaiting :: heartbeatRun cfg startedTs v ts

/-! ## Per-frame websocket handler (`_handle_ws` loop, `src/api/server.py`)

The byte-frame branch of the receive loop: barge-in on energy, flush of the
pause-merge buffer once its deadline passed (cancelling and replacing the
in-flight turn task), feeding the VAD, and arming/refreshing the held buffer
on an emission.  `rms_pcm16` is a pure energy computation on the frame; the
logic only compares it to thresholds, so the energy is passed in. -/

structure LoopCfg where
  vad : VadCfg
  /-- `PAUSE_MERGE_SEC`, in milliseconds. -/
  pauseMergeMs : Nat
  /-- `PAUSE_MERGE_SEC_FRAGMENT`, in milliseconds. -/
  pauseMergeFragmentMs : Nat
  /-- `FRAGMENT_MAX_BYTES`. -/
  fragmentMaxBytes : Nat
  /-- `BARGE_IN_RMS`. -/
  bargeInRms : ℚ
  /-- `COUNT_AUDIO_AS_ACTIVITY`. -/
  countAudioAsActivity : Bool
deriving DecidableEq, Repr

structure LoopState where
  vad : VadState
  pendingUtter : Option (List Nat)
  pendingDeadline : Nat
  /-- is a turn-processing task in flight (`proc_task and not done`). -/
  procInFlight : Bool
  /-- how many in-flight turn tasks have been cancelled (bookkeeping). -/
  procCancelled : Nat
  /-- is a speech-synthesis task in flight (`tts_task and not done`). -/
  ttsInFlight : Bool
  lastUserUtterEnd : Nat
  lastAgentSpeechEnd : Nat
  lastActivity : Nat
deriving DecidableEq, Repr

/-- The held-buffer merge of the turn assembler
    (`pending_utter = utter` / `pending_utter += utter`). -/
def mergeHeld : Option (List Nat) → List Nat → List Nat
  | none, u => u
  | some held, u => held ++ u

/-- Lines 511–527: optional activity stamp, then the server-side hard
    barge-in — cancel the in-flight synthesis task when the frame energy
    crosses the threshold, and keep feeding the VAD. -/
def bargeActivity (cfg : LoopCfg) (S : LoopState) (now : Nat) (energy : ℚ) :
    LoopState :=
  let S := if cfg.countAudioAsActivity then { S with lastActivity := now } else S
  if S.ttsInFlight ∧ cfg.bargeInRms ≤ energy then
    { S with ttsInFlight := false, lastActivity := now, lastAgentSpeechEnd := now }
  else S

/-- Lines 529–552: flush the held utterance once the pause-merge deadline has
    passed — cancel any in-flight turn task and start a new one
    (last-turn-wins). -/
def flushStep (S : LoopState) (now : Nat) : LoopState × Option (List Nat) :=
  match S.pendingUtter with
  | some held =>
    if S.pendingDeadline ≤ now then
      ({ S with lastActivity := now, lastUserUtterEnd := now,
                pendingUtter := none, pendingDeadline := 0,
                procCancelled := S.procCancelled + (if S.procInFlight then 1 else 0),
                procInFlight := true }, some held)
    else (S, none)
  | none => (S, none)

/-- Lines 554–582: feed the VAD; on a (nonempty) emission, merge it into the
    held buffer and set the adaptive grace deadline. -/
def armStep (cfg : LoopCfg) (S : LoopState) (now : Nat) (frame : List Nat)
    (energy : ℚ) : LoopState :=
  let fed := vadFeed cfg.vad S.vad now frame energy
  let S := { S with vad := fed.1 }
  match fed.2 with
  | some u =>
    if u.isEmpty then S
    else
      let merged := mergeHeld S.pendingUtter u
      let isFragment : Bool := !merged.isEmpty && merged.length ≤ cfg.fragmentMaxBytes
      let grace := if isFragment then cfg.pauseMergeFragmentMs else cfg.pauseMergeMs
      { S with lastActivity := now, lastUserUtterEnd := now,
               pendingUtter := some merged, pendingDeadline := now + grace }
  | none => S

/-- One pass of the byte-frame branch of the `_handle_ws` receive loop (lines
    504–582 of `src/api/server.py`), after the startup-ignore window.  Returns
    the new state plus the utterance dispatched to `process_utterance` on this
    pass, if any. -/
def frameStep (cfg : LoopCfg) (S : LoopState) (now : Nat) (frame : List Nat)
    (energy : ℚ) : LoopState × Option (List Nat) :=
  let S1 := bargeActivity cfg S now energy
  let fl := flushStep S1 now
  (armStep cfg fl.1 now frame energy, fl.2)

/-! ## Menu snapshot and order state (`src/api/menu_store.py`,
`OrderState` in `src/api/session_controller.py`)

Python dicts become insertion-ordered association lists: `alSet` updates in
place or appends, `alErase` models `pop`, `alGet` models `get`. -/

def alGet {α : Type} (l : List (String × α)) (k : String) : Option α :=
  match l with
  | [] => none
  | (k0, v) :: rest => if k0 = k then some v else alGet rest k

def alSet {α : Type} (l : List (String × α)) (k : String) (v : α) : List (String × α) :=
  match l with
  | [] => [(k, v)]
  | (k0, v0) :: rest => if k0 = k then (k0, v) :: rest else (k0, v0) :: alSet rest k v

def alErase {α : Type} (l : List (String × α)) (k : String) : List (String × α) :=
  match l with
  | [] => []
  | (k0, v0) :: rest => if k0 = k then rest else (k0, v0) :: alErase rest k

/-- `MenuSnapshot` (read-only): display name per item id, `name_choices` as
    `(norm_name, item_id)` pairs, and the alias map `norm_alias → item_id`. -/
structure Menu where
  items_by_id : List (String × String)
  name_choices : List (String × String)
  alias_map : List (String × String)
deriving DecidableEq, Repr

/-- `MenuSnapshot.display_name`. -/
def Menu.display_name (m : Menu) (item_id : String) : String :=
  (alGet m.items_by_id item_id).getD item_id

/-- `OrderState.add`: additive, ignores non-positive quantities. -/
def order_add (items : List (String × Int)) (item_id : String) (qty : Int) :
    List (String × Int) :=
  if qty ≤ 0 then items
  else alSet items item_id ((alGet items item_id).getD 0 + qty)

/-- `OrderState.set_qty`: absolute; non-positive removes the key. -/
def order_set_qty (items : List (String × Int)) (item_id : String) (qty : Int) :
    List (String × Int) :=
  if qty ≤ 0 then alErase items item_id
  else alSet items item_id qty

/-- `OrderState.summary`: deterministic rendering, skipping non-positive rows. -/
def order_summary (m : Menu) (items : List (String × Int)) : String :=
  String.intercalate ", "
    ((items.filter (fun p => 0 < p.2)).map
      (fun p => toString p.2 ++ "x " ++ m.display_name p.1))

/-- The rollback of the most recent add (`process_utterance`, lines
    1511–1517): subtract each last-added delta, dropping rows that reach 0. -/
def rollbackLastAdded (items lastAdded : List (String × Int)) : List (String × Int) :=
  lastAdded.foldl
    (fun acc p =>
      let cur := (alGet acc p.1).getD 0
      let newq := max 0 (cur - p.2)
      if newq ≤ 0 then alErase acc p.1 else alSet acc p.1 newq)
    items

/-- The cart mutation of `_maybe_orchestrator_apply_qty_update` (lines
    1005–1028) once a SET_QTY payload with `new_qty ≥ 1` has been accepted:
    prefer the last-added item if still in the cart, else a singleton cart. -/
def applyQtyUpdateCore (newQty : Int) (lastAdded items : List (String × Int)) :
    Option (String × List (String × Int)) :=
  if items.isEmpty then none
  else
    let oneItem : Option (String × List (String × Int)) :=
      match items with
      | [(iid, _)] => some (iid, alSet items iid newQty)
      | _ => none
    match lastAdded with
    | (iid, _) :: _ =>
      if (alGet items iid).isSome then some (iid, alSet items iid newQty)
      else oneItem
    | [] => oneItem

/-! ## Deterministic alias matcher (`parse_add_item`, `_qty_near_span`) -/

/-- `_QTY_WORDS` (lines 246–272). -/
def qtyWords : List (String × Int) :=
  [("een", 1), ("één", 1), ("twee", 2), ("drie", 3), ("vier", 4), ("vijf", 5),
   ("zes", 6), ("zeven", 7), ("acht", 8), ("negen", 9), ("tien", 10),
   ("a", 1), ("an", 1), ("one", 1), ("two", 2), ("three", 3), ("four", 4),
   ("five", 5), ("six", 6), ("seven", 7), ("eight", 8), ("nine", 9), ("ten", 10)]

/-- `QTY_MAP_NL` (line 191). -/
def qtyMapNL : List (String × Int) :=
  [("een", 1), ("één", 1), ("1", 1), ("twee", 2), ("2", 2), ("drie", 3),
   ("3", 3), ("vier", 4), ("4", 4)]

/-- `QTY_MAP_EN` (line 192). -/
def qtyMapEN : List (String × Int) :=
  [("one", 1), ("1", 1), ("two", 2), ("2", 2), ("three", 3), ("3", 3),
   ("four", 4), ("4", 4)]

/-- `_extract_qty_first(text, lang)`: first token of the normalized text that
    is a small quantity word. -/
def extract_qty_first (text : String) (lang : String) : Option Int :=
  let m := if lang = "nl" then qtyMapNL else qtyMapEN
  go ((splitWordsL (normSimple text).data).map (fun w => (⟨w⟩ : String))) m
where
  go : List String → List (String × Int) → Option Int
    | [], _ => none
    | w :: ws, m => match alGet m w with
      | some v => some v
      | none => go ws m

/-- Maximal `[A-Za-zÀ-ÿ0-9]+` runs of a character list, with their
    `(token, start, end)` positions (the `re.finditer` in `_qty_near_span`). -/
def spanToks (cs : List Char) : List (List Char × Nat × Nat) :=
  go cs 0 [] 0 []
where
  go : List Char → Nat → List Char → Nat → List (List Char × Nat × Nat) →
      List (List Char × Nat × Nat)
    | [], _, cur, curStart, acc =>
      (if cur.isEmpty then acc
       else (cur.reverse, curStart, curStart + cur.length) :: acc).reverse
    | c :: rest, i, cur, curStart, acc =>
      if spanTokChar c then
        if cur.isEmpty then go rest (i + 1) [c] i acc
        else go rest (i + 1) (c :: cur) curStart acc
      else
        go rest (i + 1) [] 0
          (if cur.isEmpty then acc
           else (cur.reverse, curStart, curStart + cur.length) :: acc)

/-- Left-hand scan of `_qty_near_span` (tokens walked right-to-left before the
    span): a digit token decides immediately (in-range or not), a quantity
    word decides, anything else keeps scanning. -/
def qtyLeftScan : List (List Char) → Option (Option Int)
  | [] => none
  | w :: ws =>
    let lw := w.map Char.toLower
    if allDigits lw then
      let q := digitsVal lw
      some (if 1 ≤ q ∧ q ≤ 20 then some (Int.ofNat q) else none)
    else
      match alGet qtyWords (⟨lw⟩ : String) with
      | some v => some (some v)
      | none => qtyLeftScan ws

/-- Right-hand scan of `_qty_near_span`: trailing shorthand `x2` / `2x`. -/
def qtyRightScan : List (List Char) → Option (Option Int)
  | [] => none
  | w :: ws =>
    let lw := w.map Char.toLower
    if (match lw.getLast? with | some 'x' => true | _ => false)
        && allDigits (lw.take (lw.length - 1)) then
      let q := digitsVal (lw.take (lw.length - 1))
      some (if 1 ≤ q ∧ q ≤ 20 then some (Int.ofNat q) else none)
    else if (match lw.head? with | some 'x' => true | _ => false)
        && allDigits (lw.drop 1) then
      let q := digitsVal (lw.drop 1)
      some (if 1 ≤ q ∧ q ≤ 20 then some (Int.ofNat q) else none)
    else qtyRightScan ws

/-- `_qty_near_span(t_norm, span_start, span_end)` (lines 275–311). -/
def qty_near_span (t : List Char) (spanStart spanEnd : Nat) : Option Int :=
  let toks := spanToks t
  if toks.isEmpty then none
  else
    match toks.findIdx? (fun p => !(p.2.2 ≤ spanStart || spanEnd ≤ p.2.1)) with
    | none => none
    | some idx =>
      let left := idx - 3
      let right := min (toks.length - 1) (idx + 1)
      let leftToks := ((toks.take idx).drop left).reverse.map (·.1)
      match qtyLeftScan leftToks with
      | some r => r
      | none =>
        let rightToks := ((toks.drop idx).take (right + 1 - idx)).map (·.1)
        match qtyRightScan rightToks with
        | some r => r
        | none => none

/-- One alias candidate span. -/
structure Cand where
  s : Nat
  e : Nat
  al : String
  itemId : String
deriving DecidableEq, Repr

/-- Non-overlapping left-to-right matches of the word-bounded literal pattern
    `(?<!\w)a(?!\w)` (the `re.finditer` in `parse_add_item`).  `skip` counts
    positions still covered by the previous match. -/
def findMatchesAux (a : List Char) : List Char → Nat → Bool → Nat → List (Nat × Nat)
  | [], _, _, _ => []
  | c :: rest, i, prevIsWord, skip =>
    if 0 < skip then findMatchesAux a rest (i + 1) (wordChar c) (skip - 1)
    else if a.isPrefixOf (c :: rest) && !prevIsWord
        && (match (c :: rest).drop a.length with
            | [] => true
            | d :: _ => !wordChar d) then
      (i, i + a.length) :: findMatchesAux a rest (i + 1) (wordChar c) (a.length - 1)
    else findMatchesAux a rest (i + 1) (wordChar c) 0

/-- All word-bounded matches of `a` in `t`. -/
def findMatches (a t : List Char) : List (Nat × Nat) :=
  if a.isEmpty then [] else findMatchesAux a t 0 false 0

/-- Candidate ordering key of `parse_add_item`:
    `key=lambda x: (-(x[1]-x[0]), x[0])` — strictly longer first, then
    strictly earlier start. -/
def candLt (x y : Cand) : Bool :=
  (y.e - y.s < x.e - x.s) || ((x.e - x.s = y.e - y.s) && x.s < y.s)

/-- Stable insertion into a sorted list: `x` goes before the first element not
    strictly before it (so equal keys keep their original order, matching
    Python's stable `list.sort`). -/
def insertStable {α : Type} (lt : α → α → Bool) (x : α) : List α → List α
  | [] => [x]
  | y :: ys => if lt y x then y :: insertStable lt x ys else x :: y :: ys

/-- Stable sort by a strict comparator. -/
def sortStable {α : Type} (lt : α → α → Bool) : List α → List α
  | [] => []
  | x :: xs => insertStable lt x (sortStable lt xs)

/-- Do half-open spans `[s1, e1)` and `[s2, e2)` overlap? -/
def overlapsB (s1 e1 s2 e2 : Nat) : Bool := !(e1 ≤ s2 || e2 ≤ s1)

/-- The greedy accept loop of `parse_add_item`: walk candidates longest-first,
    skipping item ids already used and spans overlapping an accepted span. -/
def greedyPick : List Cand → List (String × Nat × Nat) → List (String × Nat × Nat)
  | [], chosen => chosen
  | c :: rest, chosen =>
    if chosen.any (fun x => x.1 = c.itemId) then greedyPick rest chosen
    else if chosen.any (fun x => overlapsB c.s c.e x.2.1 x.2.2) then greedyPick rest chosen
    else greedyPick rest (chosen ++ [(c.itemId, c.s, c.e)])

/-- The padded normalized text `" " + norm_simple(text) + " "` that
    `parse_add_item` matches over. -/
def paddedNorm (text : String) : List Char :=
  ' ' :: (normSimple text).data ++ [' ']

/-- All alias candidates of `parse_add_item` over the padded text, in
    alias-map insertion order (aliases shorter than 3 are skipped). -/
def aliasCandidates (menu : Menu) (text : String) : List Cand :=
  let t := paddedNorm text
  menu.alias_map.flatMap (fun kv =>
    let a := (stripStr kv.1).data
    if a.length < 3 then []
    else (findMatches a t).map (fun se => { s := se.1, e := se.2, al := ⟨a⟩, itemId := kv.2 }))

/-- The accepted `(item_id, start, end)` spans of `parse_add_item`. -/
def chosenSpans (menu : Menu) (text : String) : List (String × Nat × Nat) :=
  greedyPick (sortStable candLt (aliasCandidates menu text)) []

/-- `parse_add_item(menu, text, qty=...)` (lines 314–375): span-based alias
    matching, longest-first greedy non-overlap selection, per-span local
    quantities with the global quantity reserved for single-item matches. -/
def parse_add_item (menu : Menu) (text : String) (qty : Int) : List (String × Int) :=
  let raw := (normSimple text).data
  if raw.isEmpty then []
  else
    let t := paddedNorm text
    let chosen := chosenSpans menu text
    if chosen.isEmpty then []
    else
      let multiItem : Bool := 1 < ((chosen.map (·.1)).eraseDups).length
      let q : Int := max 1 qty
      chosen.map (fun x =>
        (x.1, match qty_near_span t x.2.1 x.2.2 with
              | some localQ => localQ
              | none => if multiItem then 1 else q))

/-! ## Naan-variant keyword parsing (scoped) and menu helpers -/

/-- An apostrophe character, for keyword lists copied from the source. -/
def apos : String := ⟨[Char.ofNat 39]⟩

/-- `_NAAN_TOKENS`. -/
def naanTokens : List String := ["naan", "nan", "naam"]

/-- `_PLAIN_LIKE`. -/
def plainLike : List String :=
  ["plain", "regular", "normal", "gewoon", "normaal", "standaard",
   "plainer", "plainar", "planar", "plano", "playn", "plean"]

/-- `_VARIANT_TOKS`, in dict insertion order. -/
def variantToks : List (String × List String) :=
  [("garlic", ["garlic", "knoflook"]),
   ("cheese", ["cheese", "kaas"]),
   ("keema", ["keema", "kheema"]),
   ("peshawari", ["peshawari"])]

/-- The `±3` token window around index `i` (`window(idx, 3)`). -/
def tokWindow (toks : List String) (i : Nat) : List String :=
  (toks.take (min toks.length (i + 3 + 1))).drop (i - 3)

/-- `_extract_nan_variant_keyword_scoped(text)` (lines 466–502): look for a
    variant keyword within a three-token window of a naan token; fall back to
    adjacency patterns over the joined text. -/
def extract_nan_variant_keyword_scoped (text : String) : Option String :=
  let t := normSimple text
  if t = "" then none
  else
    let toks := wordsOf t
    let naanIdxs := (List.range toks.length).filter
      (fun i => naanTokens.contains (toks.getD i ""))
    if naanIdxs.isEmpty then none
    else if naanIdxs.any (fun i => (tokWindow toks i).any (fun w => plainLike.contains w)) then
      some "plain"
    else
      match naanIdxs.findSome? (fun i =>
        let w := tokWindow toks i
        variantToks.findSome? (fun cv =>
          if cv.2.any (fun v => w.contains v) then some cv.1 else none)) with
      | some c => some c
      | none =>
        let joined := " " ++ String.intercalate " " toks ++ " "
        variantToks.findSome? (fun cv =>
          cv.2.findSome? (fun v =>
            if strIn (" " ++ v ++ " naan ") joined || strIn (" naan " ++ v ++ " ") joined
                || strIn (" " ++ v ++ " nan ") joined || strIn (" nan " ++ v ++ " ") joined
            then some cv.1 else none))

/-- `_is_nan_item`: does the display name mention naan? -/
def is_nan_item (menu : Menu) (item_id : String) : Bool :=
  let dn := lowerStr (menu.display_name item_id)
  strIn "naan" dn || strIn "nan" dn || strIn "naam" dn

/-- The preference table of `_naan_options_from_menu`. -/
def naanPrefs : List (String × List String) :=
  [("garlic", ["garlic", "knoflook"]),
   ("plain", ["naan", "nan", "plain", "regular", "normal", "gewoon", "standaard"]),
   ("butter", ["butter", "boter"]),
   ("cheese", ["cheese", "kaas"]),
   ("keema", ["keema", "kheema"]),
   ("peshawari", ["peshawari"])]

/-- `score(label)` inside `_naan_options_from_menu`. -/
def naanOptScore (label : String) : Int :=
  let ll := stripStr (lowerStr label)
  if ll = "nan" || ll = "naan" then 120
  else
    match (List.range naanPrefs.length).findSome? (fun i =>
      match naanPrefs.getD i ("", []) with
      | (_, toks) => if toks.any (fun t => strIn t ll) then some (100 - (i : Int)) else none) with
    | some s => s
    | none => 0

/-- Strict "comes before" for the naan-options sort
    (`key=(score, -len), reverse=True`, stable). -/
def naanOptLt (x y : String × String) : Bool :=
  (naanOptScore y.1 < naanOptScore x.1)
    || (naanOptScore x.1 = naanOptScore y.1 && x.1.length < y.1.length)

/-- `_naan_options_from_menu(menu)` (lines 759–791): the naan-ish items as
    `(label, item_id)`, preference-sorted. -/
def naan_options_from_menu (menu : Menu) : List (String × String) :=
  let items := menu.name_choices.filterMap (fun p =>
    if is_nan_item menu p.2 then
      let label := stripStr (menu.display_name p.2)
      if label ≠ "" then some (label, p.2) else none
    else none)
  if items.isEmpty then [] else sortStable naanOptLt items

/-- Per-option score of `_find_naan_item_for_variant`. -/
def naanVariantScore (v : String) (label : String) : Int :=
  let ll := stripStr (lowerStr label)
  let s : Int := 0
  let s := if v = "plain" && (ll = "nan" || ll = "naan") then s + 50 else s
  let s := if v = "plain"
      && ["plain", "regular", "normal", "gewoon", "standaard"].any (fun t => strIn t ll)
    then s + 20 else s
  let s := if v = "garlic" && ["garlic", "knoflook"].any (fun t => strIn t ll) then s + 25 else s
  let s := if v = "butter" && ["butter", "boter"].any (fun t => strIn t ll) then s + 25 else s
  let s := if v = "cheese" && ["cheese", "kaas"].any (fun t => strIn t ll) then s + 25 else s
  let s := if v = "keema" && strIn "keema" ll then s + 25 else s
  let s := if v = "peshawari" && strIn "peshawari" ll then s + 25 else s
  let s := if strIn v ll then s + 8 else s
  s

/-- `_find_naan_item_for_variant(menu, variant)` (lines 834–873). -/
def find_naan_item_for_variant (menu : Menu) (variant : String) : Option String :=
  if variant = "" then none
  else
    let v := stripStr (lowerStr variant)
    let opts := naan_options_from_menu menu
    if opts.isEmpty then none
    else
      let best := opts.foldl
        (fun acc p =>
          let s := naanVariantScore v p.1
          if acc.2 < s then (some p.2, s) else acc)
        ((none : Option String), (-10 : Int))
      if 0 ≤ best.2 then best.1 else none

/-- `_check_naan_request(menu, transcript)` (lines 728–758): returns
    `(mentions_nan, has_variant, variant)`, treating "lamb naan" as plain when
    the menu has no real lamb naan. -/
def check_naan_request (menu : Menu) (transcript : String) :
    Bool × Bool × Option String :=
  let t := " " ++ normSimple transcript ++ " "
  let mentions := strIn " naan " t || strIn " nan " t || strIn " naam " t
  let variant := extract_nan_variant_keyword_scoped transcript
  if variant.isNone && mentions && (strIn " lamb " t || strIn " lam " t) then
    let opts := naan_options_from_menu menu
    let hasLambNaan := opts.any (fun p => strIn "lamb" (lowerStr p.1))
    if !hasLambNaan then (mentions, true, some "plain")
    else (mentions, false, none)
  else (mentions, variant.isSome, variant)

/-! ## Deterministic guard predicates (`SessionController._is_*`)

Each guard normalizes and checks substring membership over a keyword list;
keys that contain an apostrophe are kept verbatim from the source (they can
never match `norm_simple` output, which replaces apostrophes by spaces, but
they are part of the code being modelled). -/

def is_obvious_out_of_scope (text : String) : Bool :=
  anyIn ["weather", "weer", "temperature", "temperatuur", "forecast", "regen",
         "sunny", "zonnig"] (normSimple text)

def is_order_summary_query (text : String) : Bool :=
  anyIn
    [" what is the order ", " current order ", " total order ", " order now ",
     " order summary ", " wat is de order ", " wat is die order ",
     " wat is mijn bestelling ", " huidige bestelling ",
     " wat is de current order ", " wat is de bestelling ",
     " wat heb ik besteld ", " wat is de order nou ", " wat is de orde ",
     " wat is de orde nou ", " wat is de bestelling nou ",
     " wat is mijn order nu ", " wat is mijn bestelling nu "]
    (" " ++ normSimple text ++ " ")

def is_checkout_intent (text : String) : Bool :=
  anyIn
    [" that" ++ apos ++ "s all ", " thatll be all ", " that" ++ apos ++ "ll be all ",
     " all good ", " all set ", " that" ++ apos ++ "s it ", " thats it ",
     " finished ", " done ", " complete ", " klaar ", " klaar hoor ",
     " dat is alles ", " dat is alles hoor ", " klaar ermee ",
     " order is complete ", " place the order ", " confirm the order "]
    (" " ++ normSimple text ++ " ")

def is_affirm (text : String) : Bool :=
  anyIn [" yes ", " yeah ", " yep ", " ok ", " okay ", " oke ", " oké ", " sure ",
         " correct ", " klopt ", " ja ", " prima ", " graag ", " indeed "]
    (" " ++ normSimple text ++ " ")

def is_negative (text : String) : Bool :=
  anyIn [" no ", " nope ", " nah ", " nee ", " neen ", " liever niet ",
         " incorrect ", " klopt niet ", " not correct "]
    (" " ++ normSimple text ++ " ")

def is_refusal_like (text : String) : Bool :=
  anyIn [" no ", " nope ", " nah ", " i won" ++ apos ++ "t ", " i will not ",
         " dont ", " don" ++ apos ++ "t ", " rather not ", " nee ", " neen ",
         " wil ik niet ", " geen ", " liever niet ", " weiger "]
    (" " ++ normSimple text ++ " ")

def is_done_intent (text : String) : Bool :=
  anyIn
    [" that will be all ", " that" ++ apos ++ "ll be all ", " thats all ",
     " that" ++ apos ++ "s all ", " all good ", " that" ++ apos ++ "s it ",
     " no that" ++ apos ++ "s all ", " no thats all ", " no thank you ",
     " no thanks ", " nothing else ", " klaar ", " klaar hoor ",
     " dat is alles ", " dat was alles ", " nee dat is alles ",
     " nee hoor dat is alles ", " bestelling is klaar ", " order is complete ",
     " order complete "]
    (" " ++ normSimple text ++ " ")

def is_close_call_intent (text : String) : Bool :=
  anyIn [" close the call ", " end the call ", " hang up ", " bye ", " goodbye ",
         " thanks bye ", " thank you bye ", " ophangen ", " beëindigen ",
         " einde gesprek ", " doei ", " dag "]
    (" " ++ normSimple text ++ " ")

def is_pickup_delivery_mention (text : String) : Bool :=
  anyIn ["pickup", "pick up", "takeaway", "collection", "afhalen", "ophalen",
         "meenemen", "bezorgen", "bezorging", "delivery"] (normSimple text)

def is_yes_like (text : String) : Bool :=
  anyIn [" yes ", " yeah ", " yep ", " yup ", " ok ", " okay ", " sure ",
         " please ", " sounds good ", " ja ", " jazeker ", " zeker ", " oké ",
         " oke ", " prima ", " graag ", "top", "toppie", "okidoki"]
    (" " ++ normSimple text ++ " ")

def is_total_amount_query (text : String) : Bool :=
  anyIn [" total amount ", " total price ", " total cost ", " how much ",
         " what is the total ", " totaal bedrag ", " totaalprijs ",
         " totale prijs ", " hoeveel kost ", " wat is het totaal "]
    (" " ++ normSimple text ++ " ")

def is_order_complete_intent (text : String) : Bool :=
  anyIn [" order is complete ", " that" ++ apos ++ "s all ", " that is all ",
         " done ", " finish ", " finished ", " complete the order ",
         " place the order ", " dat is alles ", " klaar ", " afronden ",
         " bestelling is klaar ", " rond de bestelling af "]
    (" " ++ normSimple text ++ " ")

def is_ordering_intent_global (text : String) : Bool :=
  let raw := lowerStr (stripStr text)
  let ws := wordsOf raw
  if ws.isEmpty then false
  else if ws.length = 1 then
    ["bestellen", "order", "ordering", "start", "begin"].contains raw
  else
    anyIn [" ik wil bestellen ", " wil bestellen ", " i want to order ",
           " i" ++ apos ++ "d like to order ", " i would like to order ",
           " i want to order food "]
      (" " ++ normSimple text ++ " ")

def is_language_command (text : String) : Option String :=
  let t := " " ++ normSimple text ++ " "
  if strIn " nederlands " t || strIn " dutch " t then some "nl"
  else if strIn " english " t || strIn " engels " t then some "en"
  else none

/-- `_looks_like_stt_prompt_dump(text)` (lines 233–243). -/
def looks_like_stt_prompt_dump (text : String) : Bool :=
  let t := normSimple text
  if t = "" then false
  else if strIn "menu vocabulary" t || strIn "languages" t || strIn "talen" t then true
  else
    let hasManyCommas := 5 ≤ (text.data.filter (fun c => c = ',')).length
    let hasOrderVerb := anyIn ["i want", "i would like", "add", "order",
                               "ik wil", "graag", "bestel", "voeg"] t
    hasManyCommas && !hasOrderVerb

/-- `_clean_customer_name(text)` (lines 677–701). -/
def clean_customer_name (text : String) : String :=
  let t := stripStr text
  let tn := normSimple t
  let pick : List String → Option String := fun ps =>
    ps.findSome? (fun p =>
      if p.data.isPrefixOf tn.data then
        let ws := wordsOf t
        let pws := wordsOf (stripStr p)
        if pws.length < ws.length then
          some (stripDotComma (String.intercalate " " (ws.drop pws.length)))
        else none
      else none)
  match pick ["my name is ", "name is ", "i am ", "it" ++ apos ++ "s ", "its ",
              "mijn naam is ", "ik ben ", "naam is "] with
  | some r => r
  | none => stripDotComma t

/-- `_looks_like_name_answer(text)` (lines 703–719). -/
def looks_like_name_answer (text : String) : Bool :=
  let tRaw := stripStr text
  let tn := normSimple tRaw
  if tn = "" then false
  else if is_refusal_like text then false
  else if is_order_summary_query text then false
  else if is_ordering_intent_global text then false
  else if tRaw.data.contains '?' then false
  else if ["yes", "yeah", "ok", "okay", "sure", "ja", "oke", "oké", "prima",
           "good", "thanks", "thank you"].contains tn then false
  else (wordsOf tRaw).length ≤ 3

/-- `_parse_fulfillment(text)` (lines 875–881). -/
def parse_fulfillment (text : String) : Option String :=
  let t := normSimple text
  if anyIn ["pickup", "pick up", "takeaway", "collection", "for pickup",
            "afhalen", "ophalen", "meenemen", "to go", "togo"] t then some "pickup"
  else if anyIn ["delivery", "deliver", "for delivery", "bezorgen", "bezorging"] t then
    some "delivery"
  else none

/-- `_dispatcher_route(text)` (lines 893–907). -/
def dispatcher_route (text : String) : Option String :=
  let t := normSimple text
  let turkish := ["tesisat", "tesisatçı", "tamir", "sızınt", "boru", "su bas", "gaz kok"]
  let plumberNl := ["loodgieter", "lekkage", "spoed", "water", "leiding",
                    "verstopping", "afvoer"]
  let plumberEn := ["plumber", "leak", "burst", "pipe", "flood", "repair", "emergency"]
  let foodNl := ["eten", "bestellen", "indiaas", "restaurant", "afhalen", "bezorgen"]
  let foodEn := ["food", "hungry", "order", "restaurant", "indian"]
  if anyIn turkish t then some "abt"
  else if anyIn plumberNl t || anyIn plumberEn t then some "abt"
  else if anyIn foodNl t || anyIn foodEn t then some "taj_mahal"
  else none

/-- `OpenAIClient.fast_yes_no` (`src/api/services/openai_client.py`,
    lines 229–242). -/
def fast_yes_no (text : String) : Option String :=
  let t := lowerStr (stripStr text)
  if t = "" then none
  else if ["yes", "yeah", "yep", "ok", "okay", "sure", "ja", "prima", "oke"].contains t
  then some "AFFIRM"
  else if ["no", "nope", "nee"].contains t then some "NEGATE"
  else none

/-! ## Word-boundary substitutions and the quantity extractor -/

/-- Case-insensitive literal prefix test (`pat` given lowercase). -/
def ciPrefix : List Char → List Char → Bool
  | [], _ => true
  | _ :: _, [] => false
  | p :: ps, c :: cs => p = c.toLower && ciPrefix ps cs

/-- `re.sub(r"\b(p₁|p₂|…)\b", repl, s, flags=IGNORECASE)` for literal
    word-character alternatives, scanned left to right without overlap.
    `skip` counts positions still inside the previous match. -/
def subWordCIAux (pats : List (List Char)) (repl : List Char) :
    List Char → Bool → Nat → List Char
  | [], _, _ => []
  | c :: rest, prevIsWord, skip =>
    if 0 < skip then subWordCIAux pats repl rest (wordChar c) (skip - 1)
    else
      match pats.find? (fun p =>
        !p.isEmpty && !prevIsWord && ciPrefix p (c :: rest)
          && (match (c :: rest).drop p.length with
              | [] => true
              | d :: _ => !wordChar d)) with
      | some p => repl ++ subWordCIAux pats repl rest (wordChar c) (p.length - 1)
      | none => c :: subWordCIAux pats repl rest (wordChar c) 0

/-- Word-bounded case-insensitive substitution on a string. -/
def subWordCI (pats : List String) (repl : String) (s : String) : String :=
  ⟨subWordCIAux (pats.map String.data) repl.data s.data false 0⟩

/-- The English-lock transcript normalization of `process_utterance`
    (lines 1489–1493, applied when `st.lang == "en"`): map the common Dutch
    STT bleed artifacts back to "that'll be all" and `\ben\b` to "and". -/
def subDutchBleed (s : String) : String :=
  let r := "that" ++ apos ++ "ll be all"
  let s := subWordCI ["dat zal alles zijn", "dat zal zijn"] r s
  let s := subWordCI ["dat zal het zijn"] r s
  let s := subWordCI ["dat zal alles zijn"] r s
  subWordCI ["en"] "and" s

/-- Line 1496: acoustic alias `\blam\b` → "lamb" (always applied). -/
def subLamToLamb (s : String) : String := subWordCI ["lam"] "lamb" s

/-- `_norm` of `src/api/parser/quantity.py`: lowercase, strip; punctuation →
    space (keeping word characters and `é`); collapse. -/
def q110Norm (text : String) : String :=
  let t := lowerStr (stripStr text)
  ⟨joinWordsL (splitWordsL (t.data.map
    (fun c => if wordChar c || c.isWhitespace || c = 'é' then c else ' ')))⟩

def en10 : List (String × Int) :=
  [("one", 1), ("two", 2), ("three", 3), ("four", 4), ("five", 5), ("six", 6),
   ("seven", 7), ("eight", 8), ("nine", 9), ("ten", 10)]

def nl10 : List (String × Int) :=
  [("een", 1), ("één", 1), ("twee", 2), ("drie", 3), ("vier", 4), ("vijf", 5),
   ("zes", 6), ("zeven", 7), ("acht", 8), ("negen", 9), ("tien", 10)]

/-- `extract_quantity_1_to_10(text)` (`src/api/parser/quantity.py`):
    a standalone digit token `10|[1-9]` first, then word tokens. -/
def extract_quantity_1_to_10 (text : String) : Option Int :=
  if text = "" then none
  else
    let t := q110Norm text
    match (wordsOf t).find? (fun w =>
      w = "10" || (match w.data with | [c] => c.isDigit && c ≠ '0' | _ => false)) with
    | some w =>
      let v := digitsVal w.data
      if 1 ≤ v ∧ v ≤ 10 then some (Int.ofNat v) else none
    | none =>
      (wordsOf t).findSome? (fun w =>
        match alGet en10 w with
        | some v => some v
        | none => alGet nl10 w)

/-! ## Orchestrator (`src/api/orchestrator/*`): exact normalized alias lookup -/

def strStarts (p s : String) : Bool := p.data.isPrefixOf s.data

/-- `DeterministicParser._norm`: lowercase, strip, unify "pick up"/"take
    away", non-word → space, collapse. -/
def parserNorm (text : String) : String :=
  if text = "" then ""
  else
    let t := lowerStr (stripStr text)
    let t := replaceAllStr (replaceAllStr t "pick up" "pickup") "take away" "takeaway"
    ⟨joinWordsL (splitWordsL (t.data.map
      (fun c => if wordChar c || c.isWhitespace then c else ' ')))⟩

/-- The pre-normalized alias dict built in `DeterministicParser.__init__`
    (later duplicate normalized keys override earlier ones; empty keys are
    dropped). -/
def orchAliasDict (amap : List (String × String)) : List (String × String) :=
  amap.foldl
    (fun acc kv =>
      let nk := parserNorm kv.1
      if nk = "" then acc else alSet acc nk kv.2)
    []

/-- `CognitiveOrchestrator.decide` reduced to its observable effect on the
    session controller: the matched ENTITY string, if any (structured
    `__INTENT__:` / `__VALUE__:` payloads carry no entity). -/
def orchDecideEntity (amap : List (String × String)) (text : String) : Option String :=
  let norm := parserNorm text
  if norm = "" then none
  else
    match alGet (orchAliasDict amap) norm with
    | none => none
    | some m =>
      let ms := stripStr m
      if strStarts "__INTENT__:" ms || strStarts "__VALUE__:" ms then none
      else if ms = "" then none
      else some ms

/-- `TAJ_EXTRA_ALIASES` (line 75), in dict order. -/
def tajExtraAliases : List (String × String) :=
  [("tikken", "Chicken Tikka"), ("tikka", "Chicken Tikka"),
   ("tika", "Chicken Tikka"), ("bestellen", "__GLOBAL_ORDER__")]

/-- `_taj_overlay_alias_map(menu)` (lines 909–931). -/
def taj_overlay_alias_map (menu : Menu) : List (String × String) :=
  let nameToId := menu.name_choices.foldl
    (fun acc p =>
      let dn := stripStr (lowerStr (menu.display_name p.2))
      if dn ≠ "" then alSet acc dn p.2 else acc)
    []
  tajExtraAliases.foldl
    (fun out kv =>
      if kv.2 = "__GLOBAL_ORDER__" then out
      else
        match alGet nameToId (lowerStr kv.2) with
        | some iid => alSet out kv.1 iid
        | none => out)
    []

/-- `_maybe_orchestrator_match_item` (lines 933–966): only for utterances of
    at most three words; exact normalized alias lookup (with the Taj overlay);
    only concrete string item ids are returned. -/
def maybe_orchestrator_match_item (menu : Menu) (tenantRef transcript : String) :
    Option String :=
  if 3 < (wordsOf (stripStr transcript)).length then none
  else
    let amap :=
      if tenantRef = "taj_mahal" then
        (taj_overlay_alias_map menu).foldl (fun acc kv => alSet acc kv.1 kv.2) menu.alias_map
      else menu.alias_map
    orchDecideEntity amap transcript

/-- `_maybe_orchestrator_apply_qty_update` (lines 968–1028).  Its SET_QTY
    branch requires `decision.parser_result.matched_entity` to be a dict
    payload; the menu-store alias maps modelled here are string-valued
    (`menu_item_aliases` rows), so the `isinstance(payload, dict)` guard is
    always false and the function returns `None` without touching the cart.
    The cart mutation it would perform for an accepted payload is modelled
    separately as `applyQtyUpdateCore`. -/
def maybe_orchestrator_apply_qty_update (_menu : Menu) (_tenantRef _transcript : String) :
    Option (String × Int) :=
  none

/-! ## Split-edit naan regexes (lines 2018–2030)

`re.findall(r"\b(\d+|one|…|vijf)\b\s+(?:\w+\s+){0,2}?(garlic|knoflook)\s+(naan|nan)\b", t)`
matches, at the token level: a quantity token, zero to two intermediate word
tokens, the variant token, then a naan token — all separated by pure
whitespace.  `wordToksGaps` tokenizes with a flag telling whether the gap
before each token is whitespace-only. -/

def wordToksGaps (cs : List Char) : List (List Char × Bool) :=
  go cs [] true true []
where
  go : List Char → List Char → Bool → Bool → List (List Char × Bool) →
      List (List Char × Bool)
    | [], cur, curFlag, _, acc =>
      (if cur.isEmpty then acc else (cur.reverse, curFlag) :: acc).reverse
    | c :: rest, cur, curFlag, pendingGap, acc =>
      if wordChar c then
        if cur.isEmpty then go rest [c] pendingGap pendingGap acc
        else go rest (c :: cur) curFlag pendingGap acc
      else
        if cur.isEmpty then go rest [] curFlag (pendingGap && c.isWhitespace) acc
        else go rest [] true c.isWhitespace ((cur.reverse, curFlag) :: acc)

/-- The quantity alternation `\d+|one|two|three|four|five|een|één|twee|drie|vier|vijf`
    as a full-token test. -/
def qtyTok5 (w : List Char) : Bool :=
  allDigits w
    || ["one", "two", "three", "four", "five", "een", "één", "twee", "drie",
        "vier", "vijf"].contains (⟨w⟩ : String)

/-- Match `(?:\w+\s+){0,2}?(second)\s+(naan|nan)\b` lazily against a token
    tail; returns the tokens after the match. -/
def splitMatchTail (second : List String) : Nat → List (List Char × Bool) →
    Option (List (List Char × Bool))
  | _, [] => none
  | budget, (w, g) :: rest =>
    if !g then none
    else
      let asSecond : Option (List (List Char × Bool)) :=
        if second.contains (⟨w⟩ : String) then
          match rest with
          | (n, gn) :: rest2 =>
            if gn && ((⟨n⟩ : String) = "naan" || (⟨n⟩ : String) = "nan") then some rest2
            else none
          | [] => none
        else none
      match asSecond with
      | some r => some r
      | none => if 0 < budget then splitMatchTail second (budget - 1) rest else none

/-- All (non-overlapping, left-to-right) matches; returns the quantity tokens
    (group 1 of each match). -/
def splitFindAllF (second : List String) : Nat → List (List Char × Bool) →
    List (List Char)
  | 0, _ => []
  | _ + 1, [] => []
  | fuel + 1, (w, _) :: rest =>
    if qtyTok5 w then
      match splitMatchTail second 2 rest with
      | some remaining => w :: splitFindAllF second fuel remaining
      | none => splitFindAllF second fuel rest
    else splitFindAllF second fuel rest

/-- `g_all` / `p_all` of the split-edit branch over the lowered raw
    transcript. -/
def splitFindAll (second : List String) (tLow : String) : List (List Char) :=
  let toks := wordToksGaps tLow.data
  splitFindAllF second (toks.length + 1) toks

/-- `_qty_from_tok(tok)` (lines 1999–2010). -/
def qty_from_tok (tok : List Char) : Option Int :=
  let t := (stripStr (⟨tok⟩ : String)).data.map Char.toLower
  if allDigits t then
    let q := digitsVal t
    if 1 ≤ q ∧ q ≤ 20 then some (Int.ofNat q) else none
  else
    alGet [("one", 1), ("two", 2), ("three", 3), ("four", 4), ("five", 5),
           ("een", 1), ("één", 1), ("twee", 2), ("drie", 3), ("vier", 4),
           ("vijf", 5)] (⟨t⟩ : String)

/-- The fallback `mf` scan (line 2028): first quantity token anywhere. -/
def splitFirstQtyTok (tLow : String) : Option (List Char) :=
  ((wordToksGaps tLow.data).map (·.1)).find? qtyTok5

/-- The lead-in "yes, …" / "no, …" stripper of the cart-check branch
    (the `re.match(r"^(yes|…)\b[\s,!.:-]+(.+)$", t)` pair, lines 1334–1349):
    returns group 2 when the regex matches. -/
def stripLeadWord (ws : List String) (t : String) : Option String :=
  let sepCls : Char → Bool := fun c =>
    c.isWhitespace || c = ',' || c = '!' || c = '.' || c = ':' || c = '-'
  ws.findSome? (fun w =>
    if w.data.isPrefixOf t.data then
      let r0 := t.data.drop w.data.length
      let k := (r0.takeWhile sepCls).length
      if k = 0 then none
      else if k < r0.length then some (⟨r0.drop k⟩ : String)
      else if 2 ≤ k then some (⟨r0.drop (k - 1)⟩ : String)
      else none
    else none)

/-- Word-bounded search `re.search(r"\b(w₁|w₂|…)\b", s)`: all matches of any
    alternative (used as a boolean test). -/
def findMatchesList (ws : List String) (s : String) : List (Nat × Nat) :=
  ws.flatMap (fun w => findMatches w.data s.data)

/-! ## Session state and reply events

`SessionState` restricted to the fields the transcript pipeline reads or
writes.  The spoken replies are modelled as events naming the branch that
spoke (prompt wording is out of scope); `internalError` stands for an
unhandled exception caught by the generic handler at line 2254.
The `pending_prefix` field of the source is called `pendingLeadIn` here. -/

structure SessState where
  tenant_ref : String := "default"
  phase : String := "language_select"
  /-- `tenant_cfg.domain_type == "dispatcher"`. -/
  tenantDomainDispatcher : Bool := false
  lang : String := "en"
  lang_locked : Bool := true
  /-- `OrderState.items`. -/
  order : List (String × Int) := []
  pending_choice : Option String := none
  pending_qty : Int := 1
  nan_prompt_count : Nat := 0
  pending_qty_hold : Option Int := none
  pending_qty_deadline : Nat := 0
  pending_fulfillment : Bool := false
  fulfillment_mode : Option String := none
  pending_name : Bool := false
  customer_name : Option String := none
  order_complete : Bool := false
  pending_confirm : Bool := false
  order_finalized : Bool := false
  pending_cart_check : Bool := false
  cart_check_snapshot : Option String := none
  cart_check_retries : Nat := 0
  pendingLeadIn : Option String := none
  pendingLeadInDeadline : Nat := 0
  offered_item_id : Option String := none
  offered_label : Option String := none
  offered_ts : Nat := 0
  last_added : List (String × Int) := []
  last_added_ts : Nat := 0
  stt_lang_hint : Option String := none
  last_activity_ts : Nat := 0
deriving DecidableEq, Repr

inductive Reply where
  | didntCatch
  | variantPrompt
  | naanNotSpicy
  | cartCheckPrompt (cart : String)
  | sayYesOrNo
  | anythingElse
  | greatAnythingElse
  | pickupOrDelivery
  | backToOrderPickupDelivery
  | askName
  | askAddress
  | changeWhatPrompt
  | correctionUpdated (item : String)
  | offerAccepted (label : String)
  | closedGoodbye
  | alreadyConfirmed
  | confirmedFinal (cart : String)
  | confirmedPickupUnder (name : String)
  | totalUnknownConfirm (cart : String)
  | currentOrderIs (cart : String)
  | currentOrderThenName (cart : String)
  | noItemsYet
  | confirmPlace (cart : String)
  | doneRecap (cart : String)
  | fulfillmentAlreadySet
  | promptDumpHint
  | dispatcherAsk
  | dispatcherConnect (target : String)
  | whichItemPrompt
  | qtyUpdated (q : Int)
  | recapAnythingElse (cart : String)
  | thankYouName (name : String)
  | llmFallback
  | internalError
deriving DecidableEq, Repr

/-- `_is_dispatcher` (lines 883–891). -/
def is_dispatcherB (st : SessState) : Bool :=
  st.phase = "dispatcher" || st.tenantDomainDispatcher || st.tenant_ref = "voxeron_main"

/-- Cart summary used in prompts: `summary or "Empty"`. -/
def cartOrEmpty (m : Menu) (items : List (String × Int)) : String :=
  let c := order_summary m items
  if c = "" then "Empty" else c

/-- `_handle_pending_nan_variant(ws, transcript)` (lines 1144–1208).  Always
    consumes the turn. -/
def handle_pending_nan_variant (menu : Option Menu) (st : SessState)
    (transcript : String) : SessState × List Reply :=
  let tNorm := " " ++ normSimple transcript ++ " "
  -- slot-scoped acoustic forgiveness: lamb-ish and klein-ish become "plain"
  let tNorm := subWordCI ["lamb", "lam", "lamsfilet", "lams"] " plain " tNorm
  let tNorm := subWordCI ["klein", "klijn"] " plain " tNorm
  let tLow := lowerStr (stripStr tNorm)
  if (strIn "spicy" tLow || strIn "pittig" tLow || strIn "heet" tLow)
      && (strIn "naan" tLow || strIn "nan" tLow) then
    (st, [.naanNotSpicy])
  else
    let variant :=
      match extract_nan_variant_keyword_scoped tNorm with
      | some v => some v
      | none =>
        if !(findMatchesList ["plain", "normal", "regular", "gewoon", "simpel",
                              "standard"] tNorm).isEmpty then some "plain"
        else if !(findMatchesList ["garlic", "knoflook"] tNorm).isEmpty then some "garlic"
        else if !(findMatchesList ["cheese", "kaas"] tNorm).isEmpty then some "cheese"
        else if !(findMatchesList ["peshawari"] tNorm).isEmpty then some "peshawari"
        else if !(findMatchesList ["keema"] tNorm).isEmpty then some "keema"
        else none
    let resolved : Option (SessState × List Reply) :=
      match variant, menu with
      | some v, some m =>
        match find_naan_item_for_variant m v with
        | some iid =>
          let st := { st with order := order_add st.order iid (max 1 st.pending_qty),
                              pending_choice := none, pending_qty := 1,
                              nan_prompt_count := 0 }
          let cart := order_summary m st.order
          some ({ st with pending_cart_check := true, cart_check_snapshot := some cart },
                [.cartCheckPrompt cart])
        | none => none
      | _, _ => none
    match resolved with
    | some r => r
    | none =>
      -- sticky latch: re-prompt without advancing
      ({ st with nan_prompt_count := st.nan_prompt_count + 1 }, [.variantPrompt])

/-- Outcome of the cart-check confirmation branch. -/
inductive CartCheckOut where
  | consumed (st : SessState) (rs : List Reply)
  | fallThrough (st : SessState) (transcript : String)
deriving DecidableEq, Repr

/-- The `pending_cart_check` branch of `process_utterance` (lines 1322–1472).
    Note the source's own flow: on actionable non-binary input the latch is
    cleared and control reaches line 1449, where retries ≥ 3 / = 2 re-prompt
    and the final `await self._speak(… {cart} …)` at line 1466 reads the local
    `cart` that was never assigned on this path — an `UnboundLocalError`
    swallowed by the generic handler (modelled as `internalError`). -/
def cartCheckBranch (menu : Option Menu) (st : SessState) (transcript : String) :
    CartCheckOut :=
  let retries := st.cart_check_retries
  let yn0 := fast_yes_no transcript
  let t0low := lowerStr (stripStr transcript)
  let ynAndRest : Option String × String :=
    match stripLeadWord ["yes", "yeah", "yep", "ok", "okay", "sure", "ja", "oke",
                         "prima"] t0low with
    | some rest => (some "AFFIRM", stripStr rest)
    | none =>
      match stripLeadWord ["no", "nope", "nah", "nee"] t0low with
      | some rest => (some "NEGATE", stripStr rest)
      | none => (yn0, transcript)
  let yn := ynAndRest.1
  let transcript := ynAndRest.2
  if yn = some "AFFIRM" then
    .consumed { st with pending_cart_check := false, cart_check_snapshot := none,
                        cart_check_retries := 0 } [.anythingElse]
  else if yn = some "NEGATE" then
    let st := { st with pending_cart_check := false, cart_check_snapshot := none,
                        cart_check_retries := 0 }
    if stripStr transcript ≠ "" then .fallThrough st transcript
    else .consumed st [.changeWhatPrompt]
  else
    let tLow := lowerStr transcript
    let hasActionWords := anyIn
      [" add", "another", " extra", " forgot", " instead of", " change",
       " make it", " remove", " cancel", " can you add", " could you add",
       " please add", " voeg", " nog een", " extra", " vergeten",
       " in plaats van", " verander", " maak", " haal weg", " annuleer"] tLow
    let actionItems := match menu with
      | some m => parse_add_item m transcript 1
      | none => []
    let naan2 := match menu with
      | some m => check_naan_request m transcript
      | none => (false, false, none)
    let actionable := hasActionWords || !actionItems.isEmpty
        || (naan2.1 && (strIn "naan" tLow || strIn "nan" tLow || naan2.2.1))
    if actionable then
      let st := { st with pending_cart_check := false, cart_check_snapshot := none,
                          cart_check_retries := 0 }
      if 3 ≤ retries then
        if st.fulfillment_mode = none then
          .consumed { st with pending_fulfillment := true } [.pickupOrDelivery]
        else .consumed st [.anythingElse]
      else if retries = 2 then .consumed st [.sayYesOrNo]
      else .consumed st [.internalError]
    else
      let retries := retries + 1
      let st := { st with cart_check_retries := retries }
      let cart :=
        match st.cart_check_snapshot with
        | some c =>
          if c ≠ "" then c
          else match menu with | some m => order_summary m st.order | none => ""
        | none => match menu with | some m => order_summary m st.order | none => ""
      if 3 ≤ retries then
        let st := { st with pending_cart_check := false, cart_check_snapshot := none,
                            cart_check_retries := 0 }
        if st.fulfillment_mode = none then
          .consumed { st with pending_fulfillment := true } [.pickupOrDelivery]
        else .consumed st [.anythingElse]
      else if retries = 2 then .consumed st [.sayYesOrNo]
      else .consumed st [.cartCheckPrompt cart]

/-! ## Section 6 of `process_utterance`: deterministic ordering logic
(lines 1917–2246) -/

/-- Outcome of the menu-gated deterministic add block (lines 1957–2128):
    either the turn was consumed (split edit, quantity update, variant latch),
    or control falls through carrying `added_any` and the filtered `adds`. -/
inductive DetAddOut where
  | consumed (st : SessState) (rs : List Reply)
  | through (st : SessState) (addedAny : Bool) (adds : List (String × Int))
deriving DecidableEq, Repr

/-- The checkout-intent keyword list of lines 2160–2166. -/
def checkoutKeys1 : List String :=
  [" that" ++ apos ++ "s all ", " that is all ", " thats all ",
   " that" ++ apos ++ "s it ", " thats it ", " nothing else ", " no more ",
   " done ", " finish ", " finalize ", " checkout ", " check out ",
   " place the order ", " confirm ", " complete the order ", " dat is alles ",
   " dat was alles ", " niks meer ", " niets meer ", " klaar ", " afronden ",
   " rond af ", " afrekenen ", " bevestig ", " bestelling plaatsen "]

/-- The extended list of lines 2185–2192. -/
def checkoutKeys2 : List String :=
  checkoutKeys1 ++ [" no that will be all ", " that will be all ", " dat will be all "]

/-- The split-edit branch of lines 1983–2058 ("one plain naan and one garlic
    naan"): set both variant quantities absolutely, drop other naan rows, and
    move to the cart-check micro-slot.  `none` when the branch does not fire. -/
def splitNaanEdit (m : Menu) (st0 : SessState) (transcript : String) :
    Option (SessState × List Reply) :=
  let tLow := lowerStr transcript
  if !(strIn "naan" tLow || strIn "nan" tLow || strIn "naam" tLow) then none
  else
    let hasPlainWord := anyIn ["plain", "regular", "normal", "gewoon",
                               "normaal", "standaard"] tLow
    let hasGarlic := strIn "garlic" tLow || strIn "knoflook" tLow
    let hasPlain := hasPlainWord
      || ((strIn " one naan" tLow || strIn " 1 naan" tLow
          || strIn " one nan" tLow || strIn " 1 nan" tLow) && hasGarlic)
    if !(hasPlain && hasGarlic) then none
    else
      match find_naan_item_for_variant m "plain",
            find_naan_item_for_variant m "garlic" with
      | some plainIid, some garlicIid =>
        if plainIid = garlicIid then none
        else
          let gAll := splitFindAll ["garlic", "knoflook"] tLow
          let garlicQty := gAll.getLast?.bind qty_from_tok
          let pAll := splitFindAll ["plain", "regular", "normal", "gewoon",
                                    "normaal", "standaard"] tLow
          let plainQty := pAll.getLast?.bind qty_from_tok
          -- fallback: first quantity token anywhere counts as the plain one
          let plainQty := match plainQty with
            | some q => some q
            | none => (splitFirstQtyTok tLow).bind qty_from_tok
          let plainQ : Int := plainQty.getD 1
          let garlicQ : Int := garlicQty.getD 1
          let order := order_set_qty (order_set_qty st0.order plainIid plainQ)
              garlicIid garlicQ
          -- remove any other naan ids to avoid leftovers
          let order := order.filter (fun p =>
            !(is_nan_item m p.1 && p.1 ≠ plainIid && p.1 ≠ garlicIid))
          let st1 := { st0 with order := order, pending_choice := none,
                                pending_qty := 1, nan_prompt_count := 0 }
          let cart := order_summary m st1.order
          some ({ st1 with pending_cart_check := true,
                           cart_check_snapshot := some cart },
                [.cartCheckPrompt cart])
      | _, _ => none

/-- The naan quantity-update branch of lines 2060–2080 ("make it two"):
    absolute update of the single naan row already in the cart.  `none` when
    the branch does not fire. -/
def naanQtyUpdate (m : Menu) (st0 : SessState) (transcript : String) :
    Option (SessState × List Reply) :=
  let tLow := lowerStr transcript
  if !((strIn " naan" tLow || strIn "nan" tLow)
      && anyIn ["instead of", "make it", "change", "change to", "into",
                "in plaats van", "doe er", "maak er", "maak het"] tLow) then none
  else
    match extract_quantity_1_to_10 transcript with
    | some nq =>
      if 1 ≤ nq then
        match (st0.order.map (·.1)).filter (fun iid => is_nan_item m iid) with
        | [iid] =>
          let st1 := { st0 with order := alSet st0.order iid nq,
                                pending_choice := none, pending_qty := 1,
                                nan_prompt_count := 0 }
          let cart := order_summary m st1.order
          some ({ st1 with pending_cart_check := true,
                           cart_check_snapshot := some cart },
                [.cartCheckPrompt cart])
        | _ => none
      else none
    | none => none

/-- The add-loop body of Logic A (line 2098): apply each recognized non-naan
    pair to the order. -/
def addAllFold (o : List (String × Int)) (l : List (String × Int)) :
    List (String × Int) :=
  l.foldl (fun o x => order_add o x.1 x.2) o

/-- The remaining-items loop body of lines 2121–2128. -/
def detAddFold (m : Menu) (mentionsNan hasVariant : Bool)
    (acc : SessState × Bool × List String) (x : String × Int) :
    SessState × Bool × List String :=
  if acc.2.2.contains x.1 then acc
  else if mentionsNan && hasVariant && is_nan_item m x.1 then acc
  else ({ acc.1 with order := order_add acc.1.order x.1 x.2 }, true, acc.2.2 ++ [x.1])

def detAddBlock (m : Menu) (st : SessState) (eff : Int) (rawQty : Option Int)
    (hasExplicitAdd : Bool) (transcript : String) : DetAddOut :=
  -- Optional orchestrator for very short/ambiguous items
  let orch := maybe_orchestrator_match_item m st.tenant_ref transcript
  let st0 := match orch with
    | some iid => { st with order := order_add st.order iid (max 1 eff) }
    | none => st
  let addedAny0 := orch.isSome
  let addedIds0 : List String := match orch with | some iid => [iid] | none => []
  -- Standard deterministic matcher
  let adds := if addedAny0 then [] else parse_add_item m transcript eff
  -- RC3: suppress implicit re-adds on bare single-item mentions
  let adds :=
    match adds with
    | [(iid, q)] =>
      if !hasExplicitAdd && rawQty = none && 0 < ((alGet st0.order iid).getD 0) then []
      else [(iid, q)]
    | _ => adds
  let tLow := lowerStr transcript
  match splitNaanEdit m st0 transcript with
  | some r => .consumed r.1 r.2
  | none =>
    -- RC fix: naan quantity UPDATE without re-entering the variant slot
    match naanQtyUpdate m st0 transcript with
    | some r => .consumed r.1 r.2
    | none =>
      let cn := check_naan_request m transcript
      let mentionsNan := cn.1
      -- RC3.1: acoustic alias Lamb -> Plain when the menu has no lamb naan
      let hv : Bool × Option String :=
        if mentionsNan && !cn.2.1 then
          if strIn "lamb" tLow || strIn "lam" tLow then
            let opts := naan_options_from_menu m
            if !opts.any (fun p => strIn "lamb" (lowerStr p.1)) then (true, some "plain")
            else (cn.2.1, cn.2.2)
          else (cn.2.1, cn.2.2)
        else (cn.2.1, cn.2.2)
      let hasVariant := hv.1
      let variant := hv.2
      if mentionsNan && !hasVariant then
        -- Logic A: latch the variant slot; add only the non-naan items
        let nonNaan := adds.filter (fun x => !is_nan_item m x.1)
        let st1 := { st0 with
          order := addAllFold st0.order nonNaan,
          pending_choice := some "nan_variant", pending_qty := max 1 eff,
          nan_prompt_count := 0 }
        .consumed st1 [.variantPrompt]
      else
        -- Logic B: add the matched naan item, then the remaining items
        let afterB : SessState × Bool × List String × List (String × Int) :=
          if mentionsNan && hasVariant then
            match find_naan_item_for_variant m (variant.getD "") with
            | some iid =>
              ({ st0 with order := order_add st0.order iid (max 1 eff) }, true,
               addedIds0 ++ [iid],
               adds.filter (fun x => x.1 ≠ iid && !is_nan_item m x.1))
            | none => (st0, addedAny0, addedIds0, adds)
          else (st0, addedAny0, addedIds0, adds)
        let adds1 := afterB.2.2.2
        let final := adds1.foldl (detAddFold m mentionsNan hasVariant)
          (afterB.1, afterB.2.1, afterB.2.2.1)
        .through final.1 final.2.1 adds1

/-- Lines 1917–2246 of `process_utterance`: the question gate, quantity
    extraction and hold, the deterministic add block, the post-add flow
    advance, the explicit checkout bypass, the deterministic quantity update,
    and the LLM fallback. -/
def orderingAndFallback (menu : Option Menu) (st : SessState) (now : Nat)
    (transcript : String) : SessState × List Reply :=
  let rawQ := stripStr transcript
  let normQ := normSimple rawQ
  let isQuestionish := rawQ.data.contains '?'
    || ["is ", "are ", "which ", "what ", "how ", "can ", "could ", "do ",
        "does ", "wat ", "welke ", "hoe ", "kan ", "kun ", "is het ",
        "zijn "].any (fun p => strStarts p normQ)
  let hasExplicitAdd := anyIn
    [" i want ", " i" ++ apos ++ "d like ", " i would like ", " can i have ",
     " please add ", " add ", " order ", " ik wil ", " graag ", " bestel ",
     " voeg ", " mag ik "] (" " ++ normQ ++ " ")
  let allowDetAdd := !isQuestionish || hasExplicitAdd
  let itemsBefore := st.order
  let cartBefore := match menu with
    | some m => order_summary m itemsBefore
    | none => ""
  let rawQty := match extract_qty_first transcript "en" with
    | some v => some v
    | none => extract_qty_first transcript "nl"
  let addQty : Int := rawQty.getD 1
  -- RC3.4: held quantity for split utterances
  let effAndSt : Int × SessState :=
    match st.pending_qty_hold with
    | some h =>
      if h ≠ 0 ∧ now < st.pending_qty_deadline then
        (h, { st with pending_qty_hold := none, pending_qty_deadline := 0 })
      else (addQty, st)
    | none => (addQty, st)
  let eff := effAndSt.1
  let st := effAndSt.2
  let det : DetAddOut :=
    match menu with
    | some m =>
      if allowDetAdd then detAddBlock m st eff rawQty hasExplicitAdd transcript
      else .through st false []
    | none => .through st false []
  match det with
  | .consumed s rs => (s, rs)
  | .through st addedAny adds =>
    -- RC3.4: quantity-only turns are held briefly
    if menu.isSome && !addedAny && addQty ≠ 0 && adds.isEmpty
        && st.pending_choice = none
        && ["one", "two", "three", "1", "2", "3", "yes", "yeah", "ja",
            "sure"].contains (stripStr (normSimple transcript)) then
      ({ st with pending_qty_hold := some addQty, pending_qty_deadline := now + 6000 },
       [.whichItemPrompt])
    else
      -- store the last-added delta for the short correction window
      let st :=
        if menu.isSome && addedAny then
          let deltas := st.order.filterMap (fun p =>
            let oldq := (alGet itemsBefore p.1).getD 0
            if oldq < p.2 then some (p.1, p.2 - oldq) else none)
          if !deltas.isEmpty then { st with last_added := deltas, last_added_ts := now }
          else st
        else st
      let cartAfter := match menu with
        | some m => order_summary m st.order
        | none => ""
      if addedAny && menu.isSome && cartAfter ≠ "" && cartAfter ≠ cartBefore then
        let tN := " " ++ normSimple transcript ++ " "
        let checkoutIntent := anyIn checkoutKeys1 tN
        if st.fulfillment_mode = none ∧ checkoutIntent then
          ({ st with pending_fulfillment := true }, [.pickupOrDelivery])
        else if st.fulfillment_mode = some "pickup" ∧ (st.customer_name.getD "") = "" then
          ({ st with pending_name := true }, [.askName])
        else (st, [.anythingElse])
      else
        -- RC3: explicit done/checkout bypasses the LLM
        let bypass : Option (SessState × List Reply) :=
          match menu with
          | some m =>
            let tN := " " ++ normSimple transcript ++ " "
            let checkoutIntent2 := anyIn checkoutKeys2 tN
            let cartNow := order_summary m st.order
            if checkoutIntent2 && cartNow ≠ "" then
              if st.fulfillment_mode = none then
                some ({ st with pending_fulfillment := true }, [.pickupOrDelivery])
              else if st.fulfillment_mode = some "pickup"
                  && (st.customer_name.getD "") = "" then
                some ({ st with pending_name := true }, [.askName])
              else some (st, [.recapAnythingElse cartNow])
            else none
          | none => none
        match bypass with
        | some r => r
        | none =>
          -- RC1-3: deterministic qty updates before the LLM (never fires for
          -- string-valued alias maps, see `maybe_orchestrator_apply_qty_update`)
          match menu with
          | some m =>
            match maybe_orchestrator_apply_qty_update m st.tenant_ref transcript with
            | some p => (st, [.qtyUpdated p.2])
            | none => (st, [.llmFallback])
          | none => (st, [.llmFallback])

/-! ## The full transcript pipeline of `process_utterance` (from line 1304) -/

/-- Lines 1505–1914 followed by `orderingAndFallback`: the correction window,
    offer acceptance, closed-order short-circuit, global intent and language
    guards, dispatcher routing, the prompt-dump filter, the slot chain
    (variant / fulfillment / name), checkout and confirmation guards, summary
    and close-call intents, and finally the ordering logic. -/
def turnGuards (menu : Option Menu) (st : SessState) (now : Nat)
    (transcript : String) : SessState × List Reply :=
  -- RC3: fast correction "No, X" right after an accidental add
  let rollbackRes : Option (SessState × List Reply) :=
    match menu with
    | some m =>
      if !st.last_added.isEmpty && now - st.last_added_ts < 12000 then
        let tLow := lowerStr (stripStr transcript)
        if ["no", "nee", "noo", "nope"].any (fun p => strStarts p tLow) then
          match parse_add_item m transcript 1 with
          | [] => none
          | (tid, tq) :: _ =>
            let order := rollbackLastAdded st.order st.last_added
            let corr := match extract_qty_first transcript "en" with
              | some v => v
              | none =>
                match extract_qty_first transcript "nl" with
                | some v => v
                | none => if tq ≠ 0 then tq else 1
            let corrQ := max 1 corr
            some ({ st with order := order_add order tid corrQ,
                            last_added := [(tid, corrQ)], last_added_ts := now,
                            offered_item_id := none, offered_label := none,
                            offered_ts := 0 },
                  [.correctionUpdated tid])
        else none
      else none
    | none => none
  match rollbackRes with
  | some r => r
  | none =>
  -- RC3: accept the last offered item on a generic confirmation
  let offerRes : Option (SessState × List Reply) :=
    match menu, st.offered_item_id with
    | some m, some iid =>
      if iid ≠ "" && now - st.offered_ts < 25000 then
        if !(parse_add_item m transcript 1).isEmpty then none
        else
          let low := normSimple transcript
          let tokens := wordsOf low
          let isConfirm := ["yes", "yeah", "yep", "sure", "please", "ok", "okay",
                            "ja", "jazeker", "correct", "klopt"].any
            (fun w => tokens.contains w)
          let isAdd := strIn "add" low || strIn "toevoeg" low
          let q := match extract_qty_first transcript "en" with
            | some v => v
            | none => (extract_qty_first transcript "nl").getD 1
          if isConfirm || isAdd then
            let qi := max 1 q
            let dn := m.display_name iid
            let label := match st.offered_label with
              | some l => if l ≠ "" then l else (if dn ≠ "" then dn else "that item")
              | none => if dn ≠ "" then dn else "that item"
            some ({ st with order := order_add st.order iid qi,
                            last_added := [(iid, qi)], last_added_ts := now,
                            offered_item_id := none, offered_label := none,
                            offered_ts := 0 },
                  [.offerAccepted label])
          else none
      else none
    | _, _ => none
  match offerRes with
  | some r => r
  | none =>
  -- keep a completed order closed
  if st.order_complete then (st, [.closedGoodbye])
  else
  -- 1) global intent guard
  let isOrd := is_ordering_intent_global transcript
  let langCmd := is_language_command transcript
  let st := if isOrd && !(st.pending_fulfillment || st.pending_name) then
      { st with pending_name := false, pending_fulfillment := false }
    else st
  -- 2) explicit language command
  let st := match langCmd with
    | some lc =>
      if lc ≠ st.lang then
        { st with lang := lc, lang_locked := true, stt_lang_hint := some lc }
      else st
    | none => st
  -- 3) dispatcher routing (`_load_tenant_context` performs external menu and
  -- tenant I/O; the in-process state updates are modelled)
  if is_dispatcherB st then
    match dispatcher_route transcript with
    | none => (st, [.dispatcherAsk])
    | some target =>
      if target = "taj_mahal" then
        ({ st with tenant_ref := "taj_mahal", lang := "en",
                   stt_lang_hint := some "en", phase := "chat" },
         [.dispatcherConnect "taj_mahal"])
      else
        ({ st with tenant_ref := target, phase := "chat" },
         [.dispatcherConnect target])
  else
  -- 4) deterministic prompt-dump filter
  if looks_like_stt_prompt_dump transcript then (st, [.promptDumpHint])
  else
  -- 5) slot handling
  if st.pending_choice = some "nan_variant" then
    handle_pending_nan_variant menu st transcript
  else
  if st.pending_fulfillment then
    if is_obvious_out_of_scope transcript then (st, [.backToOrderPickupDelivery])
    else
      match parse_fulfillment transcript with
      | none => (st, [.pickupOrDelivery])
      | some mode =>
        let st := { st with pending_fulfillment := false, fulfillment_mode := some mode }
        if mode = "pickup" then
          if (st.customer_name.getD "") ≠ "" then (st, [.greatAnythingElse])
          else ({ st with pending_name := true }, [.askName])
        else (st, [.askAddress])
  else
  if st.pending_name then
    if is_order_summary_query transcript && menu.isSome then
      (st, [.currentOrderThenName
        (match menu with | some m => cartOrEmpty m st.order | none => "Empty")])
    else if is_obvious_out_of_scope transcript then (st, [.askName])
    else if is_refusal_like transcript then (st, [.askName])
    else
      let nameClean := clean_customer_name transcript
      if !looks_like_name_answer nameClean then (st, [.askName])
      else ({ st with customer_name := some nameClean, pending_name := false },
            [.thankYouName nameClean])
  else
  -- 5b) checkout / confirmation guards
  if st.order_finalized then (st, [.alreadyConfirmed])
  else
  let confirmRes : Option (SessState × List Reply) × SessState :=
    if st.pending_confirm then
      if is_yes_like transcript || is_order_complete_intent transcript then
        (some ({ st with pending_confirm := false, order_finalized := true },
               [.confirmedFinal (match menu with
                 | some m => order_summary m st.order
                 | none => "")]), st)
      else if is_refusal_like transcript then
        (some ({ st with pending_confirm := false }, [.changeWhatPrompt]), st)
      else (none, { st with pending_confirm := false })
    else (none, st)
  match confirmRes.1 with
  | some r => r
  | none =>
  let st := confirmRes.2
  if is_total_amount_query transcript && menu.isSome then
    ({ st with pending_confirm := true },
     [.totalUnknownConfirm (match menu with
       | some m => cartOrEmpty m st.order
       | none => "Empty")])
  else
  if is_order_complete_intent transcript && menu.isSome
      && st.fulfillment_mode.isSome && st.customer_name.isSome then
    ({ st with order_finalized := true },
     [.confirmedFinal (match menu with
       | some m => order_summary m st.order
       | none => "")])
  else
  -- 5b) (second block) checkout confirmation
  if st.order_finalized then
    if is_order_summary_query transcript && menu.isSome then
      (st, [.currentOrderIs (match menu with
        | some m => cartOrEmpty m st.order
        | none => "Empty")])
    else (st, [.alreadyConfirmed])
  else
  let confirmRes2 : Option (SessState × List Reply) × SessState :=
    if st.pending_confirm then
      if is_affirm transcript then
        (some ({ st with pending_confirm := false, order_finalized := true },
               [.confirmedPickupUnder (st.customer_name.getD "your name")]), st)
      else if is_negative transcript then
        (some ({ st with pending_confirm := false }, [.changeWhatPrompt]), st)
      else (none, { st with pending_confirm := false })
    else (none, st)
  match confirmRes2.1 with
  | some r => r
  | none =>
  let st := confirmRes2.2
  if is_order_summary_query transcript && menu.isSome then
    (st, [.currentOrderIs (match menu with
      | some m => cartOrEmpty m st.order
      | none => "Empty")])
  else
  if is_checkout_intent transcript then
    if menu.isNone || st.order.isEmpty then (st, [.noItemsYet])
    else if st.fulfillment_mode = none then
      ({ st with pending_fulfillment := true }, [.pickupOrDelivery])
    else if st.fulfillment_mode = some "pickup" && (st.customer_name.getD "") = "" then
      ({ st with pending_name := true }, [.askName])
    else
      ({ st with pending_confirm := true },
       [.confirmPlace (match menu with
         | some m => cartOrEmpty m st.order
         | none => "Empty")])
  else
  -- 5b) deterministic close-call
  if is_close_call_intent transcript then
    ({ st with order_complete := true }, [.closedGoodbye])
  else
  -- RC3.1: a bare "no" with items in the cart becomes a done intent
  let transcript :=
    if menu.isSome && !st.order.isEmpty
        && ["no", "nee", "nope", "nah"].contains (stripStr (normSimple transcript)) then
      if st.lang ≠ "nl" then "that will be all" else "dat is alles"
    else transcript
  if is_done_intent transcript then
    if st.fulfillment_mode = none then
      ({ st with pending_fulfillment := true }, [.pickupOrDelivery])
    else if st.fulfillment_mode = some "pickup" && (st.customer_name.getD "") = "" then
      ({ st with pending_name := true }, [.askName])
    else
      ({ st with order_complete := true },
       [.doneRecap (match menu with
         | some m => order_summary m st.order
         | none => "")])
  else
  -- repeated pickup/delivery mention after the mode is known
  if st.fulfillment_mode.isSome && (st.fulfillment_mode.getD "") ≠ ""
      && is_pickup_delivery_mention transcript then
    if st.fulfillment_mode = some "pickup" then
      if (st.customer_name.getD "") ≠ "" then (st, [.fulfillmentAlreadySet])
      else ({ st with pending_name := true }, [.askName])
    else (st, [.fulfillmentAlreadySet])
  else
  -- 6) + 7) ordering logic and LLM fallback
  orderingAndFallback menu st now transcript

/-- The bare lead-in set of line 1315 ("I'd like", "I want", …): such a
    transcript is held rather than processed. -/
def isLeadInHold (transcript : String) : Bool :=
  ["i" ++ apos ++ "d like", "i would like", "i want", "i" ++ apos ++ "d like to",
   "i want to"].contains (lowerStr transcript)

/-- `process_utterance` from the point the transcript is available (line
    1304, after speech-to-text): strip, merge with the held lead-in fragment
    ("I'd like …"), re-hold bare lead-ins, the cart-check latch, the
    empty-transcript recovery, the locked-English Dutch-bleed substitutions,
    the `lam`→`lamb` alias, and then the guard chain.  A speech-to-text
    exception yields `transcript0 = ""` (all call sites catch and blank). -/
def processTranscript (menu : Option Menu) (st : SessState) (now : Nat)
    (transcript0 : String) : SessState × List Reply :=
  let transcript := stripStr transcript0
  let merged : String × SessState :=
    match st.pendingLeadIn with
    | some p =>
      if p ≠ "" && now < st.pendingLeadInDeadline then
        (stripStr (p ++ " " ++ transcript),
         { st with pendingLeadIn := none, pendingLeadInDeadline := 0 })
      else (transcript, st)
    | none => (transcript, st)
  let transcript := merged.1
  let st := merged.2
  -- hold bare lead-ins and wait for the next chunk
  if isLeadInHold transcript then
    ({ st with pendingLeadIn := some transcript, pendingLeadInDeadline := now + 2000 },
     [])
  else
  if st.pending_cart_check then
    match cartCheckBranch menu st transcript with
    | .consumed s rs => (s, rs)
    | .fallThrough st transcript =>
      processAfterCartCheck menu st now transcript
  else processAfterCartCheck menu st now transcript
where
  /-- Lines 1474–1502: empty-transcript recovery, activity stamp, the
      locked-English substitutions and `lam`→`lamb`, then the guard chain. -/
  processAfterCartCheck (menu : Option Menu) (st : SessState) (now : Nat)
      (transcript : String) : SessState × List Reply :=
    if transcript = "" then (st, [.didntCatch])
    else
      let st := { st with last_activity_ts := now }
      let transcript := stripStr transcript
      let transcript := if st.lang = "en" then subDutchBleed transcript else transcript
      let transcript := subLamToLamb transcript
      turnGuards menu st now transcript

/-! ## Concrete scenario data (used by the theorems below) -/

/-- A two-variant naan menu whose alias map matches both scenario items
    (shaped like the repository's test fixtures: display names
    "Butter Chicken" / "Nan" / "Nan Garlic"). -/
def menuC1 : Menu :=
  { items_by_id := [("butter_chicken", "Butter Chicken"), ("naan_plain", "Nan"),
                    ("naan_garlic", "Nan Garlic")],
    name_choices := [("butter chicken", "butter_chicken"), ("nan", "naan_plain"),
                     ("nan garlic", "naan_garlic")],
    alias_map := [("butter chicken", "butter_chicken"), ("naan", "naan_plain"),
                  ("garlic naan", "naan_garlic")] }

/-- A fresh chat-phase session (Taj tenant, English locked, empty order,
    no pending slots). -/
def stC1 : SessState := { tenant_ref := "taj_mahal", phase := "chat", lang := "en" }

/-- The scenario utterance of the specification. -/
def scenC1 : String := "two butter chicken and one garlic naan"

/-- A session holding a lead-in fragment ("i want") whose merge deadline has
    not yet passed (set at 102000 ms; the turn below runs at 100000 ms). -/
def stLead : SessState :=
  { stC1 with pendingLeadIn := some "i want", pendingLeadInDeadline := 102000 }

/-- Heartbeat configuration with the settings defaults
    (grace 10 s, idle thresholds 25 s / 28 s). -/
def hbCfgC2 : HbCfg := { graceMs := 10000, idleMinMs := 25000, idleDefaultMs := 28000 }

/-- A fully idle session view: no activity since the epoch, nothing in
    flight. -/
def hbViewIdle : HbView :=
  { lastUserUtterEnd := 0, lastAgentSpeechEnd := 0, lastActivity := 0,
    processing := false, speaking := false }

/-- Segmenter configuration with the settings defaults (energy floor 0.006,
    20 ms frames, 3 confirm frames, 650 ms silence end, 900 ms minimum,
    300 ms pre-roll → 15 frames). -/
def vadCfgC3 : VadCfg :=
  { energyFloor := mkRat 3 500, frameMs := 20, speechConfirmFrames := 3,
    silenceEndMs := 650, minUtteranceMs := 900, prerollFrames := 15 }

/-- An in-speech segmenter state that started at time 0 with a few bytes
    buffered and no silence run. -/
def vadStC3 : VadState :=
  { inSpeech := true, speechFrames := 3, silenceFrames := 0, buf := [1, 2, 3, 4],
    startedAt := 0, preroll := [] }

/-- An idle segmenter state two voiced frames into confirmation, with two
    pre-roll frames buffered. -/
def vadStC10 : VadState :=
  { inSpeech := false, speechFrames := 2, silenceFrames := 0, buf := [],
    startedAt := 0, preroll := [[1, 1], [2, 2]] }

/-- An in-speech segmenter state about to satisfy the silence-end condition. -/
def vadStEmit : VadState :=
  { inSpeech := true, speechFrames := 3, silenceFrames := 40, buf := [9, 9],
    startedAt := 0, preroll := [] }

/-- Frame-loop configuration with the settings defaults (2.8 s / 3.2 s merge
    windows, 16000-byte fragment threshold, barge-in threshold 450). -/
def loopCfgC8 : LoopCfg :=
  { vad := vadCfgC3, pauseMergeMs := 2800, pauseMergeFragmentMs := 3200,
    fragmentMaxBytes := 16000, bargeInRms := 450, countAudioAsActivity := false }

/-- A loop state holding a pending utterance whose flush deadline has passed,
    with a turn task in flight. -/
def loopStFlush : LoopState :=
  { vad := vadReset, pendingUtter := some [7, 7, 7], pendingDeadline := 5000,
    procInFlight := true, procCancelled := 0, ttsInFlight := false,
    lastUserUtterEnd := 0, lastAgentSpeechEnd := 0, lastActivity := 0 }

/-- A quiet loop state whose segmenter is about to emit. -/
def loopStArm : LoopState :=
  { vad := vadStEmit, pendingUtter := none, pendingDeadline := 0,
    procInFlight := false, procCancelled := 0, ttsInFlight := false,
    lastUserUtterEnd := 0, lastAgentSpeechEnd := 0, lastActivity := 0 }

/-- The order invariant: every stored row has a strictly positive quantity. -/
def OrderInv (items : List (String × Int)) : Prop := ∀ p ∈ items, 0 < p.2

set_option maxRecDepth 100000

/-- Helper: the bounded pre-roll append always ends with the appended frame
    when the bound is at least one. -/
theorem prerollAppend_ends (n : Nat) (q : List (List Nat)) (f : List Nat)
    (hn : 1 ≤ n) : ∃ l, prerollAppend n q f = l ++ [f] := by
  unfold prerollAppend
  by_cases h : n < (q ++ [f]).length
  · rw [if_pos h]
    refine ⟨(q.drop ((q ++ [f]).length - n)), ?_⟩
    rw [List.drop_append_of_le_length]
    simp only [List.length_append, List.length_cons, List.length_nil]
    omega
  · rw [if_neg h]
    exact ⟨q, rfl⟩

/-- CLAIM C10 — When speech start is confirmed, the confirming frame enters
    the accumulation buffer twice: once as the newest pre-roll element and
    once via the explicit append of the current frame. -/
theorem C10_frame_duplicated (cfg : VadCfg) (s : VadState) (now : Nat)
    (frame : List Nat) (energy : ℚ)
    (h1 : s.inSpeech = false) (h2 : cfg.energyFloor ≤ energy)
    (h3 : cfg.speechConfirmFrames ≤ s.speechFrames + 1)
    (h4 : 1 ≤ cfg.prerollFrames) :
    ∃ pre, (vadFeed cfg s now frame energy).1.buf = pre ++ frame ++ frame
      ∧ (vadFeed cfg s now frame energy).1.inSpeech = true := by
  obtain ⟨l, hl⟩ := prerollAppend_ends cfg.prerollFrames s.preroll frame h4
  refine ⟨s.buf ++ l.flatten, ?_, ?_⟩ <;>
    simp [vadFeed, h1, h2, h3, hl, List.flatten_append, List.append_assoc]

theorem C10_witness :
    (1 : ℚ) ≥ vadCfgC3.energyFloor
      ∧ ∃ pre, (vadFeed vadCfgC3 vadStC10 500 [7, 8] 1).1.buf = pre ++ [7, 8] ++ [7, 8]
        ∧ (vadFeed vadCfgC3 vadStC10 500 [7, 8] 1).1.inSpeech = true :=
  ⟨by norm_num [vadCfgC3],
   C10_frame_duplicated vadCfgC3 vadStC10 500 [7, 8] 1 rfl (by norm_num [vadCfgC3])
     (by decide) (by decide)⟩

/-- CLAIM C3 (counterexample) — With the default configuration, an in-speech
    state fed a voiced frame one hour after speech start still emits nothing
    and keeps growing its buffer: `VAD.feed` has no hard maximum duration. -/
theorem C3_counterexample :
    (vadFeed vadCfgC3 vadStC3 3600000 [5, 6] 1).2 = none
      ∧ (vadFeed vadCfgC3 vadStC3 3600000 [5, 6] 1).1.buf = [1, 2, 3, 4, 5, 6]
      ∧ (vadFeed vadCfgC3 vadStC3 3600000 [5, 6] 1).1.inSpeech = true := by
  decide

/-- Helper: projecting the emission out of the final conditional. -/
theorem emit_ite_iff {c : Prop} [Decidable c] {p q : VadState} {x : List Nat} :
    ((if c then (p, some x) else (q, (none : Option (List Nat)))).2 = some x) ↔ c := by
  by_cases hc : c <;> simp [hc]

/-- CLAIM C3 (amended) — While in speech, `feed` emits the accumulated buffer
    exactly when the silence-end run and the minimum-utterance duration are
    both satisfied; there is no other emission condition (no hard maximum). -/
theorem C3_feed_emission_iff (cfg : VadCfg) (s : VadState) (now : Nat)
    (frame : List Nat) (energy : ℚ) (h : s.inSpeech = true) :
    ((vadFeed cfg s now frame energy).2 = some (s.buf ++ frame)
      ↔ (cfg.silenceEndMs
            ≤ (if cfg.energyFloor ≤ energy then 0 else (s.silenceFrames + 1) * cfg.frameMs)
         ∧ cfg.minUtteranceMs ≤ now - s.startedAt)) := by
  simp only [vadFeed, h]
  by_cases hv : cfg.energyFloor ≤ energy <;>
    simp only [hv, decide_True, decide_False, ite_true, ite_false,
      Nat.le_zero, Nat.zero_mul, zero_mul] <;>
    exact emit_ite_iff

theorem C3_feed_emission_iff_witness :
    (vadFeed vadCfgC3 vadStEmit 1000 [5] 0).2 = some (vadStEmit.buf ++ [5]) :=
  (C3_feed_emission_iff vadCfgC3 vadStEmit 1000 [5] 0 rfl).mpr (by decide)

/-- CLAIM C2 (counterexample) — A fully idle session is closed at the single
    threshold `max(HEARTBEAT_IDLE_SEC_MIN, HEARTBEAT_IDLE_SEC)` with every
    earlier check silent (`keepWaiting` speaks nothing): the loop terminates
    without ever having spoken an idle-check prompt, and there is no second
    threshold. -/
theorem C2_counterexample :
    heartbeatRun hbCfgC2 0 hbViewIdle [11000, 20000, 28000]
        = [HbAction.keepWaiting, HbAction.keepWaiting, HbAction.closeInactive]
      ∧ heartbeatCheck hbCfgC2 0 27999 hbViewIdle = HbAction.keepWaiting
      ∧ max hbCfgC2.idleMinMs hbCfgC2.idleDefaultMs = 28000 := by decide

/-- CLAIM C2 (amended) — One heartbeat iteration closes the call exactly when
    the post-connect grace period has elapsed, no turn-processing and no
    speech-synthesis task is in flight, and the idle time (now minus the
    latest of the three activity stamps) has reached the single configured
    threshold `max(idleMin, idleDefault)`; otherwise it stays silent.  The
    loop has no idle-check prompt action at all. -/
theorem C2_close_iff (cfg : HbCfg) (startedTs now : Nat) (v : HbView) :
    heartbeatCheck cfg startedTs now v = HbAction.closeInactive
      ↔ (cfg.graceMs ≤ now - startedTs ∧ v.processing = false ∧ v.speaking = false
         ∧ max cfg.idleMinMs cfg.idleDefaultMs
             ≤ now - max v.lastActivity (max v.lastUserUtterEnd v.lastAgentSpeechEnd)) := by
  simp only [heartbeatCheck]
  by_cases h1 : now - startedTs < cfg.graceMs
  · rw [if_pos h1]
    exact iff_of_false (by simp) (fun hR => absurd hR.1 (by omega))
  · rw [if_neg h1]
    by_cases h2 : (v.processing || v.speaking) = true
    · rw [if_pos h2]
      exact iff_of_false (by simp)
        (fun hR => by rw [hR.2.1, hR.2.2.1] at h2; simp at h2)
    · rw [if_neg h2]
      simp only [Bool.or_eq_true, not_or, Bool.not_eq_true] at h2
      by_cases h3 : max cfg.idleMinMs cfg.idleDefaultMs
          ≤ now - max v.lastActivity (max v.lastUserUtterEnd v.lastAgentSpeechEnd)
      · rw [if_pos h3]
        exact iff_of_true rfl ⟨by omega, h2.1, h2.2, h3⟩
      · rw [if_neg h3]
        exact iff_of_false (by simp) (fun hR => h3 hR.2.2.2)

/-- CLAIM C1 (counterexample) — For the scenario utterance on the two-variant
    naan menu, the order ends at garlic naan 2 (not 1): branch B applies the
    leading global quantity to the resolved naan. -/
theorem C1_counterexample :
    (processTranscript (some menuC1) stC1 100000 scenC1).1.order
        = [("naan_garlic", 2), ("butter_chicken", 2)]
      ∧ ¬ alGet (processTranscript (some menuC1) stC1 100000 scenC1).1.order
            "naan_garlic" = some 1 := by decide

/-- CLAIM C1 (amended) — The scenario utterance leaves the order at
    `{butterChicken: 2, naanGarlic: 2}` with no variant prompt (only the
    "anything else" advance): the alias matcher itself computes the local
    quantity 1 for the garlic naan, but the naan branch re-adds it with the
    utterance-level quantity 2. -/
theorem C1_amended :
    (processTranscript (some menuC1) stC1 100000 scenC1).1.order
        = [("naan_garlic", 2), ("butter_chicken", 2)]
      ∧ (processTranscript (some menuC1) stC1 100000 scenC1).2 = [Reply.anythingElse]
      ∧ (processTranscript (some menuC1) stC1 100000 scenC1).1.pending_choice = none
      ∧ parse_add_item menuC1 scenC1 2 = [("butter_chicken", 2), ("naan_garlic", 1)] := by
  decide

/-- CLAIM C9 (counterexample) — With a held lead-in fragment ("i want")
    inside its merge window, an empty transcript (the STT-exception outcome)
    is silently re-held: no "didn't catch that" reply is spoken. -/
theorem C9_counterexample :
    (processTranscript (some menuC1) stLead 100000 "").2 = []
      ∧ (processTranscript (some menuC1) stLead 100000 "").1.pendingLeadIn = some "i want"
      ∧ (processTranscript (some menuC1) stLead 100000 "").1.order = stLead.order := by
  decide

/-- CLAIM C9 (amended) — When speech-to-text fails the transcript is blank
    (every call site catches and blanks); provided the cart-check latch is
    not pending and no held lead-in fragment is inside its merge window, the
    turn replies with the single neutral "didn't catch that" prompt, performs
    no retry, and leaves the entire session state — order and all pending
    slots — unchanged; the session continues. -/
theorem C9_empty_transcript (menu : Option Menu) (st : SessState) (now : Nat)
    (h1 : st.pending_cart_check = false)
    (h2 : st.pendingLeadIn = none ∨ st.pendingLeadInDeadline ≤ now) :
    processTranscript menu st now "" = (st, [Reply.didntCatch]) := by
  have h0 : stripStr "" = "" := by decide
  have hc : isLeadInHold "" = false := by decide
  rcases h2 with h2 | h2
  · simp [processTranscript, h0, h2, hc, h1, processTranscript.processAfterCartCheck]
  · cases hp : st.pendingLeadIn with
    | none => simp [processTranscript, h0, hp, hc, h1,
        processTranscript.processAfterCartCheck]
    | some p =>
      simp [processTranscript, h0, hp, hc, h1, Nat.not_lt.mpr h2,
        processTranscript.processAfterCartCheck]

theorem C9_empty_transcript_witness :
    stC1.pending_cart_check = false
      ∧ processTranscript (some menuC1) stC1 5000 "" = (stC1, [Reply.didntCatch]) :=
  ⟨rfl, C9_empty_transcript (some menuC1) stC1 5000 rfl (Or.inl rfl)⟩

/-- Helper: the activity/barge-in pass touches neither the held buffer, nor
    the flush deadline, nor the turn task, nor the segmenter state. -/
theorem bargeActivity_inv (cfg : LoopCfg) (S : LoopState) (now : Nat) (energy : ℚ) :
    (bargeActivity cfg S now energy).pendingUtter = S.pendingUtter
      ∧ (bargeActivity cfg S now energy).pendingDeadline = S.pendingDeadline
      ∧ (bargeActivity cfg S now energy).procInFlight = S.procInFlight
      ∧ (bargeActivity cfg S now energy).procCancelled = S.procCancelled
      ∧ (bargeActivity cfg S now energy).vad = S.vad := by
  simp only [bargeActivity]
  split_ifs <;> exact ⟨rfl, rfl, rfl, rfl, rfl⟩

/-- Helper: the arm pass never touches the turn task bookkeeping. -/
theorem armStep_proc (cfg : LoopCfg) (S : LoopState) (now : Nat)
    (frame : List Nat) (energy : ℚ) :
    (armStep cfg S now frame energy).procInFlight = S.procInFlight
      ∧ (armStep cfg S now frame energy).procCancelled = S.procCancelled := by
  unfold armStep
  rcases h : (vadFeed cfg.vad S.vad now frame energy).2 with _ | u
  · simp [h]
  · by_cases hu : u.isEmpty <;> simp [h, hu]

/-- A non-empty merge result. -/
theorem mergeHeld_ne_nil (o : Option (List Nat)) (u : List Nat) (hu : u ≠ []) :
    mergeHeld o u ≠ [] := by
  cases o <;> simp [mergeHeld, hu]

/-- CLAIM C8 — The turn assembler: (flush half) once the held buffer's
    deadline has passed, the next frame pass dispatches exactly the held
    bytes, cancels an in-flight turn task (counter increment) and replaces it
    (a task is in flight afterwards); (arm half) when the segmenter emits a
    nonempty utterance on a pass that did not flush, the emission is
    concatenated onto the held buffer and the flush deadline becomes now plus
    the longer grace window exactly when the merged buffer's byte length is at
    or below the fragment threshold, otherwise the shorter window. -/
theorem C8_turn_assembler (cfg : LoopCfg) (S : LoopState) (now : Nat)
    (frame : List Nat) (energy : ℚ) :
    (∀ held, S.pendingUtter = some held → S.pendingDeadline ≤ now →
        (frameStep cfg S now frame energy).2 = some held
        ∧ (frameStep cfg S now frame energy).1.procInFlight = true
        ∧ (frameStep cfg S now frame energy).1.procCancelled
            = S.procCancelled + (if S.procInFlight then 1 else 0))
    ∧ (∀ u, (S.pendingUtter = none ∨ now < S.pendingDeadline) →
        (vadFeed cfg.vad S.vad now frame energy).2 = some u → u ≠ [] →
        (frameStep cfg S now frame energy).1.pendingUtter
            = some (mergeHeld S.pendingUtter u)
        ∧ (frameStep cfg S now frame energy).1.pendingDeadline
            = now + (if (mergeHeld S.pendingUtter u).length ≤ cfg.fragmentMaxBytes
                     then cfg.pauseMergeFragmentMs else cfg.pauseMergeMs)) := by
  obtain ⟨b1, b2, b3, b4, b5⟩ := bargeActivity_inv cfg S now energy
  constructor
  · intro held hheld hdl
    obtain ⟨p1, p2⟩ := armStep_proc cfg (flushStep (bargeActivity cfg S now energy) now).1
      now frame energy
    refine ⟨?_, ?_, ?_⟩
    · simp only [frameStep]
      simp [flushStep, b1, hheld, b2, hdl]
    · simp only [frameStep]
      rw [p1]
      simp [flushStep, b1, hheld, b2, hdl]
    · simp only [frameStep]
      rw [p2]
      simp [flushStep, b1, hheld, b2, b3, b4, hdl]
  · intro u hnofl hfeed hu
    have hfl : flushStep (bargeActivity cfg S now energy) now
        = (bargeActivity cfg S now energy, none) := by
      rcases hnofl with h | h
      · simp [flushStep, b1, h]
      · cases hp : S.pendingUtter with
        | none => simp [flushStep, b1, hp]
        | some held => simp [flushStep, b1, hp, b2, Nat.not_le.mpr h]
    have hue : u.isEmpty = false := by
      cases u with
      | nil => exact absurd rfl hu
      | cons a t => rfl
    have hne : ((mergeHeld S.pendingUtter u).isEmpty) = false := by
      have := mergeHeld_ne_nil S.pendingUtter u hu
      cases hmm : mergeHeld S.pendingUtter u with
      | nil => exact absurd hmm this
      | cons a t => rfl
    simp only [frameStep, hfl, armStep, b5, hfeed, b1, hue, Bool.false_eq_true,
      if_false]
    refine ⟨trivial, ?_⟩
    simp only [hne, Bool.not_false, Bool.true_and]
    by_cases hlen : (mergeHeld S.pendingUtter u).length ≤ cfg.fragmentMaxBytes <;>
      simp [hlen]

theorem C8_turn_assembler_witness :
    ((frameStep loopCfgC8 loopStFlush 6000 [0] 0).2 = some [7, 7, 7]
      ∧ (frameStep loopCfgC8 loopStFlush 6000 [0] 0).1.procInFlight = true
      ∧ (frameStep loopCfgC8 loopStFlush 6000 [0] 0).1.procCancelled
          = loopStFlush.procCancelled + (if loopStFlush.procInFlight then 1 else 0))
    ∧ ((frameStep loopCfgC8 loopStArm 1000 [5] 0).1.pendingUtter
          = some (mergeHeld loopStArm.pendingUtter [9, 9, 5])
      ∧ (frameStep loopCfgC8 loopStArm 1000 [5] 0).1.pendingDeadline
          = 1000 + (if (mergeHeld loopStArm.pendingUtter [9, 9, 5]).length
                      ≤ loopCfgC8.fragmentMaxBytes
                    then loopCfgC8.pauseMergeFragmentMs else loopCfgC8.pauseMergeMs)) :=
  ⟨(C8_turn_assembler loopCfgC8 loopStFlush 6000 [0] 0).1 [7, 7, 7] rfl (by decide),
   (C8_turn_assembler loopCfgC8 loopStArm 1000 [5] 0).2 [9, 9, 5] (Or.inl rfl)
     (by decide) (by decide)⟩

/-- Helper: the greedy accept loop preserves distinct item ids and pairwise
    span disjointness of the accumulator. -/
theorem greedyPick_preserves (cs : List Cand) (chosen : List (String × Nat × Nat))
    (h1 : (chosen.map Prod.fst).Nodup)
    (h2 : chosen.Pairwise (fun x y => x.2.2 ≤ y.2.1 ∨ y.2.2 ≤ x.2.1)) :
    ((greedyPick cs chosen).map Prod.fst).Nodup
      ∧ (greedyPick cs chosen).Pairwise (fun x y => x.2.2 ≤ y.2.1 ∨ y.2.2 ≤ x.2.1) := by
  induction cs generalizing chosen with
  | nil => exact ⟨h1, h2⟩
  | cons c rest ih =>
    by_cases hid : chosen.any (fun x => x.1 = c.itemId)
    · simpa [greedyPick, hid] using ih chosen h1 h2
    · by_cases hov : chosen.any (fun x => overlapsB c.s c.e x.2.1 x.2.2)
      · simpa [greedyPick, hid, hov] using ih chosen h1 h2
      · have hnotmem : c.itemId ∉ chosen.map Prod.fst := by
          intro hmem
          obtain ⟨x, hx, hxe⟩ := List.mem_map.mp hmem
          exact hid (List.any_eq_true.mpr ⟨x, hx, by simp [hxe]⟩)
        have hdisj : ∀ x ∈ chosen, x.2.2 ≤ c.s ∨ c.e ≤ x.2.1 := by
          intro x hx
          have : ¬ (overlapsB c.s c.e x.2.1 x.2.2 = true) := by
            intro hb
            exact hov (List.any_eq_true.mpr ⟨x, hx, hb⟩)
          simp only [overlapsB, Bool.not_eq_true, Bool.not_eq_false',
            Bool.or_eq_true, decide_eq_true_eq] at this
          omega
        have hn1 : ((chosen ++ [(c.itemId, c.s, c.e)]).map Prod.fst).Nodup := by
          rw [List.map_append]
          refine List.Nodup.append h1 (by simp) ?_
          simp [List.disjoint_singleton, hnotmem]
        have hn2 : (chosen ++ [(c.itemId, c.s, c.e)]).Pairwise
            (fun x y => x.2.2 ≤ y.2.1 ∨ y.2.2 ≤ x.2.1) := by
          rw [List.pairwise_append]
          refine ⟨h2, by simp, ?_⟩
          intro x hx y hy
          simp only [List.mem_singleton] at hy
          subst hy
          exact hdisj x hx
        simpa [greedyPick, hid, hov] using
          ih (chosen ++ [(c.itemId, c.s, c.e)]) hn1 hn2

/-- CLAIM C5 — `parse_add_item` span selection: the accepted spans are
    pairwise non-overlapping and the result carries at most one entry per
    item identifier (ids are pairwise distinct). -/
theorem C5_span_selection (menu : Menu) (text : String) (qty : Int) :
    ((parse_add_item menu text qty).map Prod.fst).Nodup
      ∧ (chosenSpans menu text).Pairwise (fun x y => x.2.2 ≤ y.2.1 ∨ y.2.2 ≤ x.2.1)
      ∧ ((chosenSpans menu text).map Prod.fst).Nodup := by
  obtain ⟨g1, g2⟩ := greedyPick_preserves
    (sortStable candLt (aliasCandidates menu text)) [] (by simp) (by simp)
  have hid : ((parse_add_item menu text qty).map Prod.fst).Nodup := by
    unfold parse_add_item
    by_cases h1 : ((normSimple text).data).isEmpty
    · simp [h1]
    · by_cases h2 : (chosenSpans menu text).isEmpty
      · simp [h1, h2]
      · simpa [h1, h2, List.map_map, Function.comp] using g1
  exact ⟨hid, g2, g1⟩

theorem C5_span_selection_example :
    parse_add_item
      { items_by_id := [("lamb_tikka", "Lamb Tikka"), ("lamb_tikka_biryani", "Lamb Tikka Biryani")],
        name_choices := [("lamb tikka", "lamb_tikka"), ("lamb tikka biryani", "lamb_tikka_biryani")],
        alias_map := [("lamb tikka", "lamb_tikka"), ("lamb tikka biryani", "lamb_tikka_biryani")] }
      "one lamb tikka biryani" 1 = [("lamb_tikka_biryani", 1)] := by decide

/-- CLAIM C6 — Every entry of `parse_add_item` carries either the local
    quantity read from the token window around its accepted span, or — when
    no local quantity is present — quantity 1 if several distinct items were
    matched, and the (clamped) caller-supplied global quantity if exactly one
    item was matched. -/
theorem C6_local_qty (menu : Menu) (text : String) (qty : Int) (entry : String × Int)
    (hm : entry ∈ parse_add_item menu text qty) :
    ∃ s e, (entry.1, s, e) ∈ chosenSpans menu text
      ∧ ((∃ l, qty_near_span (paddedNorm text) s e = some l ∧ entry.2 = l)
         ∨ (qty_near_span (paddedNorm text) s e = none
            ∧ entry.2 = if 1 < ((chosenSpans menu text).map Prod.fst).eraseDups.length
                        then 1 else max 1 qty)) := by
  unfold parse_add_item at hm
  by_cases h1 : ((normSimple text).data).isEmpty
  · simp [h1] at hm
  · by_cases h2 : (chosenSpans menu text).isEmpty
    · simp [h1, h2] at hm
    · simp only [h1, h2, Bool.false_eq_true, if_false, List.mem_map] at hm
      obtain ⟨x, hx, hxe⟩ := hm
      refine ⟨x.2.1, x.2.2, ?_, ?_⟩
      · have : entry.1 = x.1 := by rw [← hxe]
        rw [this]
        simpa using hx
      · cases hq : qty_near_span (paddedNorm text) x.2.1 x.2.2 with
        | some l =>
          left
          refine ⟨l, rfl, ?_⟩
          rw [← hxe]
          simp [hq]
        | none =>
          right
          refine ⟨rfl, ?_⟩
          rw [← hxe]
          simp only [hq]
          by_cases hmul : 1 < ((chosenSpans menu text).map Prod.fst).eraseDups.length <;>
            simp [hmul]

theorem C6_local_qty_witness :
    ("butter_chicken", (2 : Int)) ∈ parse_add_item menuC1 scenC1 2
      ∧ ∃ s e, ((("butter_chicken" : String), s, e) ∈ chosenSpans menuC1 scenC1
        ∧ ((∃ l, qty_near_span (paddedNorm scenC1) s e = some l ∧ (2 : Int) = l)
           ∨ (qty_near_span (paddedNorm scenC1) s e = none
              ∧ (2 : Int) = if 1 < ((chosenSpans menuC1 scenC1).map Prod.fst).eraseDups.length
                            then 1 else max 1 2))) :=
  ⟨by decide, C6_local_qty menuC1 scenC1 2 ("butter_chicken", 2) (by decide)⟩

/-- Helper: association-list membership behind a successful lookup. -/
theorem alGet_mem {α : Type} (l : List (String × α)) (k : String) (v : α)
    (h : alGet l k = some v) : (k, v) ∈ l := by
  induction l with
  | nil => simp [alGet] at h
  | cons a t ih =>
    by_cases hk : a.1 = k
    · simp only [alGet, hk, if_pos] at h
      cases h
      subst hk
      simp
    · simp only [alGet, hk, if_neg, if_false] at h
      exact List.mem_cons_of_mem a (ih h)

/-- Helper: in-place update preserves positivity when the new value is
    positive. -/
theorem OrderInv_alSet (items : List (String × Int)) (k : String) (v : Int)
    (h : OrderInv items) (hv : 0 < v) : OrderInv (alSet items k v) := by
  induction items with
  | nil =>
    intro p hp
    simp only [alSet, List.mem_singleton] at hp
    subst hp
    exact hv
  | cons a t ih =>
    intro p hp
    by_cases hk : a.1 = k
    · simp only [alSet, hk, if_pos, List.mem_cons] at hp
      rcases hp with hp | hp
      · subst hp; exact hv
      · exact h p (List.mem_cons_of_mem a hp)
    · simp only [alSet, hk, if_neg, if_false, List.mem_cons] at hp
      rcases hp with hp | hp
      · subst hp; exact h a (List.mem_cons_self a t)
      · exact ih (fun q hq => h q (List.mem_cons_of_mem a hq)) p hp

/-- Helper: removal preserves positivity. -/
theorem OrderInv_alErase (items : List (String × Int)) (k : String)
    (h : OrderInv items) : OrderInv (alErase items k) := by
  induction items with
  | nil => intro p hp; simp [alErase] at hp
  | cons a t ih =>
    intro p hp
    by_cases hk : a.1 = k
    · simp only [alErase, hk, if_pos] at hp
      exact h p (List.mem_cons_of_mem a hp)
    · simp only [alErase, hk, if_neg, if_false, List.mem_cons] at hp
      rcases hp with hp | hp
      · subst hp; exact h a (List.mem_cons_self a t)
      · exact ih (fun q hq => h q (List.mem_cons_of_mem a hq)) p hp

/-- Helper: a key absent from the key list cannot be looked up. -/
theorem alGet_eq_none_of_not_mem {α : Type} (l : List (String × α)) (k : String)
    (h : k ∉ l.map Prod.fst) : alGet l k = none := by
  induction l with
  | nil => rfl
  | cons a t ih =>
    simp only [List.map_cons, List.mem_cons] at h
    push_neg at h
    rw [show alGet (a :: t) k = if a.1 = k then some a.2 else alGet t k from rfl,
        if_neg (fun he => h.1 he.symm)]
    exact ih h.2

/-- Helper: erasing a key removes it entirely when keys are distinct. -/
theorem alGet_alErase_self (items : List (String × Int)) (k : String)
    (hnd : (items.map Prod.fst).Nodup) : alGet (alErase items k) k = none := by
  induction items with
  | nil => rfl
  | cons a t ih =>
    simp only [List.map_cons, List.nodup_cons] at hnd
    by_cases hk : a.1 = k
    · simp only [alErase, hk, if_pos]
      exact alGet_eq_none_of_not_mem t k (hk ▸ hnd.1)
    · simp only [alErase, hk, if_neg, if_false, alGet,
        if_neg (fun he : a.1 = k => hk he)]
      exact ih hnd.2

/-- Helper: additive add preserves positivity. -/
theorem OrderInv_order_add (items : List (String × Int)) (id : String) (q : Int)
    (h : OrderInv items) : OrderInv (order_add items id q) := by
  unfold order_add
  split_ifs with hq
  · exact h
  · apply OrderInv_alSet items id _ h
    push_neg at hq
    cases hget : alGet items id with
    | none => simpa [hget] using hq
    | some v =>
      have hv := h _ (alGet_mem items id v hget)
      simp only [hget, Option.getD_some]
      omega

/-- Helper: absolute set preserves positivity. -/
theorem OrderInv_order_set_qty (items : List (String × Int)) (id : String) (q : Int)
    (h : OrderInv items) : OrderInv (order_set_qty items id q) := by
  unfold order_set_qty
  split_ifs with hq
  · exact OrderInv_alErase items id h
  · exact OrderInv_alSet items id q h (by omega)

/-- Helper: the last-added rollback preserves positivity. -/
theorem OrderInv_rollback (items lastAdded : List (String × Int))
    (h : OrderInv items) : OrderInv (rollbackLastAdded items lastAdded) := by
  induction lastAdded generalizing items with
  | nil => exact h
  | cons a t ih =>
    unfold rollbackLastAdded
    rw [List.foldl_cons]
    apply ih
    dsimp only
    split_ifs with hq
    · exact OrderInv_alErase items a.1 h
    · exact OrderInv_alSet items a.1 _ h (by omega)

/-- Helper: the accepted SET_QTY mutation preserves positivity. -/
theorem OrderInv_applyQtyUpdateCore (nq : Int) (la items : List (String × Int))
    (id : String) (items2 : List (String × Int))
    (h1 : 1 ≤ nq) (h : OrderInv items)
    (he : applyQtyUpdateCore nq la items = some (id, items2)) : OrderInv items2 := by
  have hset : ∀ iid, items2 = alSet items iid nq → OrderInv items2 := by
    intro iid hi
    rw [hi]
    exact OrderInv_alSet items iid nq h (by omega)
  unfold applyQtyUpdateCore at he
  by_cases hi : items.isEmpty
  · simp [hi] at he
  · simp only [hi, Bool.false_eq_true, if_false] at he
    cases hla : la with
    | cons a t =>
      rw [hla] at he
      by_cases hg : (alGet items a.1).isSome
      · simp only [hg, if_pos] at he
        cases he
        exact hset a.1 rfl
      · simp only [hg, Bool.false_eq_true, if_false] at he
        cases hone : items with
        | nil => simp [hone] at hi
        | cons b u =>
          cases u with
          | nil =>
            rw [hone] at he
            simp only at he
            cases he
            exact hset b.1 (by rw [hone])
          | cons c w =>
            rw [hone] at he
            simp at he
    | nil =>
      rw [hla] at he
      cases hone : items with
      | nil => simp [hone] at hi
      | cons b u =>
        cases u with
        | nil =>
          rw [hone] at he
          simp only at he
          cases he
          exact hset b.1 (by rw [hone])
        | cons c w =>
          rw [hone] at he
          simp at he

/-- CLAIM C7 — Order rows are always strictly positive: `add` ignores
    non-positive quantities, `set_qty` with a non-positive quantity removes
    the key (for the duplicate-free lists dict semantics guarantees), and
    every cart-mutating path — add, absolute set, the last-added rollback,
    the deterministic quantity update, and the direct in-place naan update
    with a positive quantity — preserves the invariant. -/
theorem C7_order_invariant :
    (∀ (items : List (String × Int)) (id : String) (q : Int),
        q ≤ 0 → order_add items id q = items)
    ∧ (∀ (items : List (String × Int)) (id : String) (q : Int),
        OrderInv items → OrderInv (order_add items id q))
    ∧ (∀ (items : List (String × Int)) (id : String) (q : Int),
        (items.map Prod.fst).Nodup → q ≤ 0 →
        alGet (order_set_qty items id q) id = none)
    ∧ (∀ (items : List (String × Int)) (id : String) (q : Int),
        OrderInv items → OrderInv (order_set_qty items id q))
    ∧ (∀ (items lastAdded : List (String × Int)),
        OrderInv items → OrderInv (rollbackLastAdded items lastAdded))
    ∧ (∀ (nq : Int) (la items : List (String × Int)) (id : String)
          (items2 : List (String × Int)),
        1 ≤ nq → OrderInv items →
        applyQtyUpdateCore nq la items = some (id, items2) → OrderInv items2)
    ∧ (∀ (items : List (String × Int)) (id : String) (q : Int),
        1 ≤ q → OrderInv items → OrderInv (alSet items id q)) := by
  refine ⟨?_, ?_, ?_, ?_, ?_, ?_, ?_⟩
  · intro items id q hq
    unfold order_add
    rw [if_pos hq]
  · exact fun items id q h => OrderInv_order_add items id q h
  · intro items id q hnd hq
    unfold order_set_qty
    rw [if_pos hq]
    exact alGet_alErase_self items id hnd
  · exact fun items id q h => OrderInv_order_set_qty items id q h
  · exact fun items la h => OrderInv_rollback items la h
  · exact fun nq la items id items2 h1 h he =>
      OrderInv_applyQtyUpdateCore nq la items id items2 h1 h he
  · exact fun items id q hq h => OrderInv_alSet items id q h (by omega)

theorem C7_order_invariant_witness :
    ((-1 : Int) ≤ 0 ∧ order_add [("x", 2)] "x" (-1) = [("x", 2)])
    ∧ (OrderInv [("x", 2)] ∧ OrderInv (order_add [("x", 2)] "y" 3))
    ∧ ((([("x", 2), ("y", 1)] : List (String × Int)).map Prod.fst).Nodup
        ∧ alGet (order_set_qty [("x", 2), ("y", 1)] "x" 0) "x" = none)
    ∧ (OrderInv (rollbackLastAdded [("x", 2), ("y", 1)] [("x", 2)]))
    ∧ ((1 : Int) ≤ 4 ∧ OrderInv (alSet [("x", 2)] "x" 4)) :=
  ⟨⟨by norm_num, C7_order_invariant.1 [("x", 2)] "x" (-1) (by norm_num)⟩,
   ⟨by unfold OrderInv; decide, C7_order_invariant.2.1 [("x", 2)] "y" 3
      (by unfold OrderInv; decide)⟩,
   ⟨by decide, C7_order_invariant.2.2.1 [("x", 2), ("y", 1)] "x" 0 (by decide) (by norm_num)⟩,
   C7_order_invariant.2.2.2.2.1 [("x", 2), ("y", 1)] [("x", 2)]
     (by unfold OrderInv; decide),
   ⟨by norm_num, C7_order_invariant.2.2.2.2.2.2 [("x", 2)] "x" 4 (by norm_num)
      (by unfold OrderInv; decide)⟩⟩

set_option maxRecDepth 100000

/-- If `p` is a prefix of `q`, any haystack containing `q` contains `p`. -/
theorem isSubL_mono (p q : List Char) (hpq : p.isPrefixOf q = true) :
    ∀ hay, isSubL q hay = true → isSubL p hay = true := by
  intro hay
  induction hay with
  | nil =>
    intro h
    simp only [isSubL] at h ⊢
    have hq : q = [] := by
      cases q with
      | nil => rfl
      | cons a t => simp [List.isEmpty] at h
    subst hq
    have hp : p = [] := by
      cases p with
      | nil => rfl
      | cons a t => simp [List.isPrefixOf] at hpq
    simp [hp, List.isEmpty]
  | cons c rest ih =>
    intro h
    simp only [isSubL, Bool.or_eq_true] at h ⊢
    rcases h with h | h
    · exact Or.inl (List.isPrefixOf_iff_prefix.mpr
        ((List.isPrefixOf_iff_prefix.mp hpq).trans (List.isPrefixOf_iff_prefix.mp h)))
    · exact Or.inr (ih h)

/-- A haystack containing "lamb" contains "lam". -/
theorem strIn_lam_of_lamb (t : String) (h : strIn "lamb" t = true) :
    strIn "lam" t = true := by
  unfold strIn at h ⊢
  exact isSubL_mono _ _ (by decide) _ h

/-- Looking up the key just set returns the new value. -/
theorem alGet_alSet_self {α : Type} (l : List (String × α)) (k : String) (v : α) :
    alGet (alSet l k v) k = some v := by
  induction l with
  | nil => simp [alSet, alGet]
  | cons a t ih =>
    obtain ⟨k0, v0⟩ := a
    by_cases h : k0 = k
    · simp [alSet, alGet, h]
    · simp [alSet, alGet, h, ih]

/-- Setting one key leaves lookups at other keys unchanged. -/
theorem alGet_alSet_ne {α : Type} (l : List (String × α)) (k1 k : String) (v : α)
    (h : k1 ≠ k) : alGet (alSet l k1 v) k = alGet l k := by
  induction l with
  | nil => simp [alSet, alGet, h]
  | cons a t ih =>
    obtain ⟨k0, v0⟩ := a
    by_cases h0 : k0 = k1
    · subst h0
      simp [alSet, alGet, h]
    · simp only [alSet, if_neg h0]
      by_cases h2 : k0 = k
      · simp [alGet, h2]
      · simp [alGet, h2, ih]

/-- Adding at one key (`OrderState.add`) leaves lookups at other keys unchanged. -/
theorem alGet_order_add_ne (l : List (String × Int)) (k1 k : String) (q : Int)
    (h : k1 ≠ k) : alGet (order_add l k1 q) k = alGet l k := by
  unfold order_add
  by_cases hq : q ≤ 0
  · simp [hq]
  · simp [hq, alGet_alSet_ne l k1 k _ h]

/-- Adding a positive quantity (`OrderState.add`) increments the stored value. -/
theorem alGet_order_add_pos (l : List (String × Int)) (k : String) (q : Int)
    (h : 0 < q) : alGet (order_add l k q) k = some ((alGet l k).getD 0 + q) := by
  unfold order_add
  rw [if_neg (by omega)]
  exact alGet_alSet_self l k _

/-- Folding `order_add` over pairs whose keys all differ from `k` leaves the
    lookup at `k` unchanged. -/
theorem addAllFold_pres (k : String) :
    ∀ (l : List (String × Int)) (o : List (String × Int)),
      (∀ x ∈ l, x.1 ≠ k) → alGet (addAllFold o l) k = alGet o k := by
  intro l
  induction l with
  | nil => intro o _; rfl
  | cons a t ih =>
    intro o hl
    have h1 : a.1 ≠ k := hl a (List.mem_cons_self a t)
    have h2 : alGet (addAllFold (order_add o a.1 a.2) t) k
        = alGet (order_add o a.1 a.2) k :=
      ih (order_add o a.1 a.2) (fun x hx => hl x (List.mem_cons_of_mem a hx))
    exact h2.trans (alGet_order_add_ne o a.1 k a.2 h1)

/-- The remaining-items loop of lines 2121–2128 never touches the order row
    of a key absent from its input list, and never touches `pending_choice`. -/
theorem detAddFold_pres (m : Menu) (mb hb : Bool) (k : String) :
    ∀ (l : List (String × Int)) (acc : SessState × Bool × List String),
      (∀ x ∈ l, x.1 ≠ k) →
      alGet (l.foldl (detAddFold m mb hb) acc).1.order k = alGet acc.1.order k
      ∧ (l.foldl (detAddFold m mb hb) acc).1.pending_choice
        = acc.1.pending_choice := by
  intro l
  induction l with
  | nil => intro acc _; exact ⟨rfl, rfl⟩
  | cons a t ih =>
    intro acc hl
    have h1 : a.1 ≠ k := hl a (List.mem_cons_self a t)
    have step1 : alGet (detAddFold m mb hb acc a).1.order k = alGet acc.1.order k := by
      unfold detAddFold
      split_ifs
      · rfl
      · rfl
      · exact alGet_order_add_ne acc.1.order a.1 k a.2 h1
    have step2 : (detAddFold m mb hb acc a).1.pending_choice
        = acc.1.pending_choice := by
      unfold detAddFold
      split_ifs <;> rfl
    have hrec := ih (detAddFold m mb hb acc a)
      (fun x hx => hl x (List.mem_cons_of_mem a hx))
    exact ⟨hrec.1.trans step1, hrec.2.trans step2⟩

/-- Every member of the Logic-B remaining-adds filter has a key other than
    the naan item just added. -/
theorem filter_ne_key (m : Menu) (iid : String) (l : List (String × Int)) :
    ∀ x ∈ l.filter (fun x => x.1 ≠ iid && !is_nan_item m x.1), x.1 ≠ iid := by
  intro x hx he
  have h2 := (List.mem_filter.mp hx).2
  rw [he] at h2
  simp at h2

/-- Every member of the Logic-A non-naan filter has a key other than any
    naan item. -/
theorem filter_not_nan (m : Menu) (iid : String) (hiid : is_nan_item m iid = true)
    (l : List (String × Int)) :
    ∀ x ∈ l.filter (fun x => !is_nan_item m x.1), x.1 ≠ iid := by
  intro x hx he
  have h2 := (List.mem_filter.mp hx).2
  rw [he, hiid] at h2
  simp at h2

/-- When the scoped extractor fires and the generic naan is mentioned,
    `_check_naan_request` reports that variant. -/
theorem check_naan_scoped (m : Menu) (t v : String)
    (hs : extract_nan_variant_keyword_scoped t = some v)
    (hm : (check_naan_request m t).1 = true) :
    check_naan_request m t = (true, true, some v) := by
  unfold check_naan_request at hm ⊢
  simp only [hs, Option.isNone_some, Bool.false_and, Bool.false_eq_true, if_false,
    Option.isSome_some] at hm ⊢
  rw [hm]

/-- C4: behaviour of the deterministic add block (lines 2082–2128) on naan
    mentions, for transcripts without the lamb/lam acoustic-alias trigger.
    (i) When the orchestrator exact-alias hook, the split-edit branch and the
    quantity-update branch do not fire and `_check_naan_request` reports a
    generic naan mention with no variant (the menu offering at least two
    naan variants), the block latches `pending_choice = "nan_variant"`, asks
    the variant prompt, and adds no naan item to the order.  (ii) Under the
    same provisos, when the scoped extractor yields an explicit variant
    keyword that resolves to a concrete item, the block adds that item
    directly (quantity `max 1 effective_qty`) and passes through with no
    variant prompt and `pending_choice` unchanged.  (iii) When the
    orchestrator hook does fire on a no-variant naan mention (bare "naan"
    hits the generic alias), the block first adds the matched item with
    quantity `max 1 effective_qty` and only then latches and prompts: the
    latch does not prevent the silent add. -/
theorem C4_variant_gate (m : Menu) (st : SessState) (eff : Int) (rawQty : Option Int)
    (hasExplicitAdd : Bool) (transcript : String)
    (hlam : strIn "lam" (lowerStr transcript) = false) :
    (maybe_orchestrator_match_item m st.tenant_ref transcript = none →
      splitNaanEdit m st transcript = none →
      naanQtyUpdate m st transcript = none →
      check_naan_request m transcript = (true, false, none) →
      2 ≤ (naan_options_from_menu m).length →
      ∃ st1, detAddBlock m st eff rawQty hasExplicitAdd transcript
            = .consumed st1 [.variantPrompt]
        ∧ st1.pending_choice = some "nan_variant"
        ∧ ∀ iid, is_nan_item m iid = true → alGet st1.order iid = alGet st.order iid)
    ∧
    (∀ v iid, maybe_orchestrator_match_item m st.tenant_ref transcript = none →
      splitNaanEdit m st transcript = none →
      naanQtyUpdate m st transcript = none →
      extract_nan_variant_keyword_scoped transcript = some v →
      (check_naan_request m transcript).1 = true →
      find_naan_item_for_variant m v = some iid →
      ∃ st1 b adds1, detAddBlock m st eff rawQty hasExplicitAdd transcript
            = .through st1 b adds1
        ∧ alGet st1.order iid = some ((alGet st.order iid).getD 0 + max 1 eff)
        ∧ st1.pending_choice = st.pending_choice)
    ∧
    (∀ iid, maybe_orchestrator_match_item m st.tenant_ref transcript = some iid →
      splitNaanEdit m { st with order := order_add st.order iid (max 1 eff) }
          transcript = none →
      naanQtyUpdate m { st with order := order_add st.order iid (max 1 eff) }
          transcript = none →
      check_naan_request m transcript = (true, false, none) →
      ∃ st1, detAddBlock m st eff rawQty hasExplicitAdd transcript
            = .consumed st1 [.variantPrompt]
        ∧ st1.pending_choice = some "nan_variant"
        ∧ alGet st1.order iid = some ((alGet st.order iid).getD 0 + max 1 eff)) := by
  have hlamb : strIn "lamb" (lowerStr transcript) = false := by
    cases hb : strIn "lamb" (lowerStr transcript) with
    | false => rfl
    | true => rw [strIn_lam_of_lamb _ hb] at hlam; exact hlam
  refine ⟨?_, ?_, ?_⟩
  · intro horch hsplit hupd hcn _
    simp only [detAddBlock, horch, hsplit, hupd, hcn, hlamb, hlam,
      Option.isSome_none, Bool.false_eq_true, if_false, Bool.not_false,
      Bool.and_true, Bool.true_and, Bool.or_self, if_true, Bool.not_true,
      Bool.and_false, Bool.false_and]
    refine ⟨_, rfl, rfl, ?_⟩
    intro iid hiid
    exact addAllFold_pres iid _ st.order (filter_not_nan m iid hiid _)
  · intro v iid horch hsplit hupd hs hm hfind
    have hcn : check_naan_request m transcript = (true, true, some v) :=
      check_naan_scoped m transcript v hs hm
    simp only [detAddBlock, horch, hsplit, hupd, hcn, hfind,
      Option.isSome_none, Bool.false_eq_true, if_false, Bool.not_true,
      Bool.and_false, Bool.false_and, Bool.and_true, Bool.true_and,
      Option.getD_some, if_true, List.nil_append]
    refine ⟨_, _, _, rfl, ?_, ?_⟩
    · exact ((detAddFold_pres m true true iid _ _ (filter_ne_key m iid _)).1).trans
        (alGet_order_add_pos st.order iid (max 1 eff)
          (by have := le_max_left (1 : Int) eff; omega))
    · exact ((detAddFold_pres m true true iid _ _ (filter_ne_key m iid _)).2).trans rfl
  · intro iid horch hsplit hupd hcn
    simp only [detAddBlock, horch, hsplit, hupd, hcn, hlamb, hlam,
      Option.isSome_some, Bool.false_eq_true, if_false, Bool.not_false,
      Bool.and_true, Bool.true_and, Bool.or_self, if_true, Bool.not_true,
      Bool.and_false, Bool.false_and, List.filter_nil]
    refine ⟨_, rfl, rfl, ?_⟩
    exact (addAllFold_pres iid [] _ (fun x hx => absurd hx (List.not_mem_nil x))).trans
      (alGet_order_add_pos st.order iid (max 1 eff)
        (by have := le_max_left (1 : Int) eff; omega))

/-- Witness for C4: on the sample menu, "one naan" latches the variant slot
    with no naan row added; "one garlic naan" resolves directly to the
    garlic naan item; and bare "naan" hits the orchestrator generic alias,
    which adds the plain naan before the latch. -/
theorem C4_variant_gate_witness :
    (∃ st1, detAddBlock menuC1 stC1 1 none false "one naan"
          = .consumed st1 [.variantPrompt]
      ∧ st1.pending_choice = some "nan_variant"
      ∧ ∀ iid, is_nan_item menuC1 iid = true
          → alGet st1.order iid = alGet stC1.order iid)
    ∧ (∃ st1 b adds1, detAddBlock menuC1 stC1 1 none false "one garlic naan"
          = .through st1 b adds1
      ∧ alGet st1.order "naan_garlic"
          = some ((alGet stC1.order "naan_garlic").getD 0 + max 1 1)
      ∧ st1.pending_choice = stC1.pending_choice)
    ∧ (∃ st1, detAddBlock menuC1 stC1 1 none false "naan"
          = .consumed st1 [.variantPrompt]
      ∧ st1.pending_choice = some "nan_variant"
      ∧ alGet st1.order "naan_plain"
          = some ((alGet stC1.order "naan_plain").getD 0 + max 1 1)) :=
  ⟨(C4_variant_gate menuC1 stC1 1 none false "one naan" (by decide)).1
      (by decide) (by decide) (by decide) (by decide) (by decide),
   (C4_variant_gate menuC1 stC1 1 none false "one garlic naan" (by decide)).2.1
      "garlic" "naan_garlic"
      (by decide) (by decide) (by decide) (by decide) (by decide) (by decide),
   (C4_variant_gate menuC1 stC1 1 none false "naan" (by decide)).2.2
      "naan_plain" (by decide) (by decide) (by decide) (by decide)⟩

/-- C4 counterexample, two failures of the original claim.  First, "one lamb
    naan" carries no variant keyword in the scoped window and the sample menu
    offers two naan variants, yet `process_utterance` does not latch the
    variant slot and silently adds a plain naan (the lamb→plain acoustic
    alias of lines 2085–2093 guesses a variant).  Second, bare "naan" is
    reported by `_check_naan_request` as a generic mention with no variant,
    yet the turn ends with a plain naan silently added: the orchestrator
    exact-alias hook (lines 1957–1963, fed by the generic naan alias that
    `menu_store` keeps mapped to the plain item) adds it before the latch. -/
theorem C4_counterexample :
    (extract_nan_variant_keyword_scoped "one lamb naan" = none
    ∧ (check_naan_request menuC1 "one lamb naan").1 = true
    ∧ 2 ≤ (naan_options_from_menu menuC1).length
    ∧ (processTranscript menuC1 stC1 100000 "one lamb naan").1.pending_choice = none
    ∧ alGet (processTranscript menuC1 stC1 100000 "one lamb naan").1.order
        "naan_plain" = some 1)
    ∧ (check_naan_request menuC1 "naan" = (true, false, none)
    ∧ (processTranscript menuC1 stC1 100000 "naan").1.pending_choice
        = some "nan_variant"
    ∧ alGet (processTranscript menuC1 stC1 100000 "naan").1.order
        "naan_plain" = some 1) := by
  refine ⟨⟨by decide, by decide, by decide, ?_, ?_⟩, by decide, ?_, ?_⟩ <;> decide
